import Mathlib

/-!
Verification of the sqlite-to-postgres migration pipeline
(`sqlite_to_postgres/load_data.py`) and its consistency checker
(`sqlite_to_postgres/tests/check_consistency.py`) against the repository
specification.  The Python code is shallowly embedded: pure helpers become
Lean functions, database effects become explicit state passing, exceptions
become `Except` values.
-/

deriving instance DecidableEq for Except

/- ### Character-list string helpers

`check_consistency.py` manipulates timestamp strings with `'+00' in value`
and `value.replace('+00', '')`.  Both are modelled on `List Char`
(left-to-right, non-overlapping replacement, exactly as Python's
`str.replace`). -/

/-- Model of Python `'+00' in value`. -/
def containsPlus00 : List Char → Bool
  | '+' :: '0' :: '0' :: _ => true
  | _ :: rest => containsPlus00 rest
  | [] => false

/-- Model of Python `value.replace('+00', '')`: remove every
(non-overlapping, left-to-right) occurrence of `+00`. -/
def stripPlus00 : List Char → List Char
  | '+' :: '0' :: '0' :: rest => stripPlus00 rest
  | c :: rest => c :: stripPlus00 rest
  | [] => []

/-- Split a character list on a separator character (like `str.split(sep)`
for a single-character separator: empty segments are kept). -/
def splitOnChar (sep : Char) : List Char → List (List Char)
  | [] => [[]]
  | c :: rest =>
    match splitOnChar sep rest with
    | [] => [[]]
    | g :: gs => if c = sep then [] :: g :: gs else (c :: g) :: gs

/-- All characters are ASCII decimal digits. -/
def allDigits (cs : List Char) : Bool := cs.all (·.isDigit)

/-- Decimal value of a digit string. -/
def digitsToNat (cs : List Char) : Nat :=
  cs.foldl (fun a c => a * 10 + (c.toNat - 48)) 0

/-- Parse one `strptime` numeric field: between `minLen` and `maxLen`
digits, value between `lo` and `hi` (mirrors the regexes CPython's
`_strptime` builds for `%Y`, `%m`, `%d`, `%H`, `%M`, `%S`, `%f`). -/
def parseField (cs : List Char) (minLen maxLen lo hi : Nat) : Option Nat :=
  if minLen ≤ cs.length ∧ cs.length ≤ maxLen ∧ allDigits cs then
    let n := digitsToNat cs
    if lo ≤ n ∧ n ≤ hi then some n else none
  else none

namespace Checker

/- ### Datetime values (`check_consistency.py`) -/

/-- A Python `datetime`'s civil fields (no timezone). -/
structure NaiveDT where
  year : Nat
  month : Nat
  day : Nat
  hour : Nat
  minute : Nat
  second : Nat
  usec : Nat
deriving DecidableEq, Repr

/-- Days since 1970-01-01 of a civil date (Gregorian, proleptic);
the standard days-from-civil computation. -/
def daysFromCivil (y m d : Int) : Int :=
  let y' := if m ≤ 2 then y - 1 else y
  let era := (if 0 ≤ y' then y' else y' - 399) / 400
  let yoe := y' - era * 400
  let mp := if 2 < m then m - 3 else m + 9
  let doy := (153 * mp + 2) / 5 + d - 1
  let doe := yoe * 365 + yoe / 4 - yoe / 100 + doy
  era * 146097 + doe - 719468

/-- Civil date from days since 1970-01-01 (inverse of `daysFromCivil`). -/
def civilFromDays (z0 : Int) : Int × Int × Int :=
  let z := z0 + 719468
  let era := (if 0 ≤ z then z else z - 146096) / 146097
  let doe := z - era * 146097
  let yoe := (doe - doe / 1460 + doe / 36524 - doe / 146096) / 365
  let y := yoe + era * 400
  let doy := doe - (365 * yoe + yoe / 4 - yoe / 100)
  let mp := (5 * doy + 2) / 153
  let d := doy - (153 * mp + 2) / 5 + 1
  let m := if mp < 10 then mp + 3 else mp - 9
  (if m ≤ 2 then y + 1 else y, m, d)

/-- Microseconds since the epoch of a naive datetime. -/
def dtToMicros (t : NaiveDT) : Int :=
  ((daysFromCivil t.year t.month t.day) * 86400
    + t.hour * 3600 + t.minute * 60 + t.second) * 1000000 + t.usec

/-- Naive datetime from microseconds since the epoch. -/
def dtFromMicros (x : Int) : NaiveDT :=
  let day := x.fdiv 86400000000
  let rem := (x - day * 86400000000).toNat
  let c := civilFromDays day
  { year := c.1.toNat, month := c.2.1.toNat, day := c.2.2.toNat
    hour := rem / 3600000000
    minute := rem % 3600000000 / 60000000
    second := rem % 60000000 / 1000000
    usec := rem % 1000000 }

/-- A database cell value as Python sees it: `None`, a string, a number
(int/float collapsed to `ℚ`), or a `datetime` that is naive (`tz = none`)
or aware with a fixed UTC offset in minutes (`tz = some off`). -/
inductive CVal where
  | null
  | str (s : String)
  | num (q : ℚ)
  | dt (t : NaiveDT) (tz : Option Int)
deriving DecidableEq, Repr

/-- Python `==` on the cell values that occur here: `None == None`,
string/number/naive-datetime structural equality, aware datetimes compared
as UTC instants, everything cross-kind `False` (Python returns `False`,
it does not raise). -/
def pyEq : CVal → CVal → Bool
  | .null, .null => true
  | .str a, .str b => a = b
  | .num a, .num b => a = b
  | .dt a Option.none, .dt b Option.none => a = b
  | .dt a (some oa), .dt b (some ob) =>
      dtToMicros a - oa * 60000000 = dtToMicros b - ob * 60000000
  | _, _ => false

/-- Exceptions raised inside the checker.  `countMismatch`, `lenMismatch`
and `fieldMismatch` are the three `assert` statements (AssertionError);
`valueError` is `datetime.strptime` failing; `keyError` is a missing
column on the Postgres row. -/
inductive CheckErr where
  | valueError
  | keyError
  | countMismatch
  | lenMismatch
  | fieldMismatch (rowId : CVal) (column : String)
deriving DecidableEq, Repr

/-- Which exceptions the driver's `except AssertionError` catches. -/
def CheckErr.isAssertion : CheckErr → Bool
  | .countMismatch => true
  | .lenMismatch => true
  | .fieldMismatch _ _ => true
  | _ => false

/-- Model of `strptime(value, '%Y-%m-%d %H:%M:%S.%f')`: the whole string
must match, `%Y` is exactly 4 digits, `%m`/`%d`/`%H`/`%M`/`%S` are 1-2
digits in their calendar ranges, `%f` is 1-6 digits scaled to
microseconds. -/
def strptimeYmdHmsF (cs : List Char) : Option NaiveDT :=
  match splitOnChar ' ' cs with
  | [datePart, timePart] =>
    match splitOnChar '-' datePart with
    | [ys, mos, ds] =>
      match splitOnChar ':' timePart with
      | [hs, mins, secPart] =>
        match splitOnChar '.' secPart with
        | [ss, fs] =>
          match parseField ys 4 4 0 9999, parseField mos 1 2 1 12,
                parseField ds 1 2 1 31, parseField hs 1 2 0 23,
                parseField mins 1 2 0 59, parseField ss 1 2 0 61,
                parseField fs 1 6 0 999999 with
          | some y, some mo, some d, some h, some mi, some s, some f =>
            some ⟨y, mo, d, h, mi, s, f * 10 ^ (6 - fs.length)⟩
          | _, _, _, _, _, _, _ => none
        | _ => none
      | _ => none
    | _ => none
  | _ => none

/-- `convert_sqlite_datetime` (check_consistency.py:22-26): a string
containing `+00` has every `+00` removed and is parsed with
`strptime('%Y-%m-%d %H:%M:%S.%f')` (raising ValueError when it does not
match); everything else passes through. -/
def convert_sqlite_datetime (v : CVal) : Except CheckErr CVal :=
  match v with
  | .str s =>
    if containsPlus00 s.data then
      match strptimeYmdHmsF (stripPlus00 s.data) with
      | some t => .ok (.dt t Option.none)
      | none => .error .valueError
    else .ok v
  | _ => .ok v

/-- `convert_postgres_datetime` (check_consistency.py:29-32): a tz-aware
datetime is converted to UTC (`astimezone(pytz.utc)`, i.e. wall time minus
the offset) and its tzinfo dropped; everything else passes through. -/
def convert_postgres_datetime (v : CVal) : CVal :=
  match v with
  | .dt t (some off) => .dt (dtFromMicros (dtToMicros t - off * 60000000)) Option.none
  | _ => v

/-- A fetched row: ordered association list of column name to value
(`sqlite3.Row` / `RealDictCursor` both preserve column order). -/
abbrev Row := List (String × CVal)

/-- `pg_row[column]`: KeyError when the column is absent. -/
def rowLookup (r : Row) (c : String) : Except CheckErr CVal :=
  match r.find? (fun p => p.1 = c) with
  | some p => .ok p.2
  | none => .error .keyError

/-- `sqlite_row['id']`, used only to build the assertion message (all
tables carry an `id` column). -/
def rowIdOf (r : Row) : CVal :=
  match r.find? (fun p => p.1 = "id") with
  | some p => p.2
  | none => .null

/-- The inner column loop of `compare_table_data` for one row pair:
normalize `created`/`modified`, treat sqlite `None` vs postgres `0.0` as
equal, and raise AssertionError naming the row id and column at the first
real difference. -/
def checkColumns (rowId : CVal) (prow : Row) : List (String × CVal) → Except CheckErr Unit
  | [] => .ok ()
  | (col, sval) :: rest =>
    match rowLookup prow col with
    | .error e => .error e
    | .ok pval =>
      match (if col = "created" ∨ col = "modified"
             then convert_sqlite_datetime sval else .ok sval) with
      | .error e => .error e
      | .ok sv =>
        let pv := if col = "created" ∨ col = "modified"
                  then convert_postgres_datetime pval else pval
        if sv = CVal.null ∧ pyEq pv (.num 0) then checkColumns rowId prow rest
        else if pyEq sv pv then checkColumns rowId prow rest
        else .error (.fieldMismatch rowId col)

/-- The outer row loop of `compare_table_data` over `zip(sqlite_rows, pg_rows)`. -/
def checkRows : List (Row × Row) → Except CheckErr Unit
  | [] => .ok ()
  | (srow, prow) :: rest =>
    match checkColumns (rowIdOf srow) prow srow with
    | .error e => .error e
    | .ok _ => checkRows rest

/-- `compare_table_data` (check_consistency.py:55-88): assert equal row
counts, then compare field by field; the first failing `assert` (or a
ValueError from timestamp parsing) aborts the whole comparison. -/
def compare_table_data (sqliteRows pgRows : List Row) : Except CheckErr Bool :=
  if sqliteRows.length = pgRows.length then
    match checkRows (sqliteRows.zip pgRows) with
    | .error e => .error e
    | .ok _ => .ok true
  else .error .lenMismatch

/-- `compare_table_count` (check_consistency.py:35-52) on the two
`SELECT COUNT(*)` results. -/
def compare_table_count (sqliteCount pgCount : Nat) : Except CheckErr Bool :=
  if sqliteCount = pgCount then .ok true else .error .countMismatch

/-- One table as the checker sees it: the two counts and the two
sorted-by-id row fetches. -/
structure TableData where
  name : String
  sqliteCount : Nat
  pgCount : Nat
  sqliteRows : List Row
  pgRows : List Row

/-- The body of the per-table `try` block in `test_data_integrity`:
count check first, then content check. -/
def checkTable (t : TableData) : Except CheckErr Unit :=
  match compare_table_count t.sqliteCount t.pgCount with
  | .error e => .error e
  | .ok _ =>
    match compare_table_data t.sqliteRows t.pgRows with
    | .error e => .error e
    | .ok _ => .ok ()

/-- Per-table outcome as logged by the driver. -/
inductive TableOutcome where
  | passed
  | failed (e : CheckErr)
deriving DecidableEq, Repr

/-- `test_data_integrity` (check_consistency.py:91-110): for each table
run both checks inside one `try`; `except AssertionError` logs and
continues with the next table; any other exception propagates and aborts
the remaining tables. -/
def test_data_integrity : List TableData → Except CheckErr (List TableOutcome)
  | [] => .ok []
  | t :: rest =>
    match checkTable t with
    | .ok _ =>
      match test_data_integrity rest with
      | .ok l => .ok (.passed :: l)
      | .error e => .error e
    | .error e =>
      if e.isAssertion then
        match test_data_integrity rest with
        | .ok l => .ok (.failed e :: l)
        | .error e' => .error e'
      else .error e

/- ### Spec-side reference models (for refinement comparison)

The spec (§4.5) describes a checker that records every mismatch and runs
the two checks of a table independently.  The following definitions follow
those spec sentences; they exist only to be compared with the code
models above. -/

/-- Follows the spec's words (§4.5): the content check records each field
mismatch with the row id and column name and continues over all remaining
rows and columns, aggregating every mismatch found.  Errors that are not
field mismatches end the scan as in the code. -/
def specColumnMismatches (rowId : CVal) (prow : Row) : List (String × CVal) → List CheckErr
  | [] => []
  | (col, sval) :: rest =>
    match rowLookup prow col with
    | .error e => [e]
    | .ok pval =>
      match (if col = "created" ∨ col = "modified"
             then convert_sqlite_datetime sval else .ok sval) with
      | .error e => [e]
      | .ok sv =>
        let pv := if col = "created" ∨ col = "modified"
                  then convert_postgres_datetime pval else pval
        if sv = CVal.null ∧ pyEq pv (.num 0) then specColumnMismatches rowId prow rest
        else if pyEq sv pv then specColumnMismatches rowId prow rest
        else CheckErr.fieldMismatch rowId col :: specColumnMismatches rowId prow rest

/-- Follows the spec's words (§4.5): aggregate the mismatches of every row
pair of the table. -/
def specRowMismatches : List (Row × Row) → List CheckErr
  | [] => []
  | (srow, prow) :: rest =>
    specColumnMismatches (rowIdOf srow) prow srow ++ specRowMismatches rest

/-- Follows the spec's words (§4.5): the count check and the content check
of one table run independently; each failure is reported, neither blocks
the other. -/
def specCheckTableIndependent (t : TableData) : List CheckErr :=
  (match compare_table_count t.sqliteCount t.pgCount with
   | .error e => [e]
   | .ok _ => []) ++
  (match compare_table_data t.sqliteRows t.pgRows with
   | .error e => [e]
   | .ok _ => [])

end Checker

/- ### Batched extraction (`SQLiteLoader.load_data`, load_data.py:71-88)

The loader counts the rows once, then pages with
`LIMIT batch_size OFFSET offset` while `offset < total_rows`, advancing
`offset` by `batch_size`.  On an immutable row list the query
`LIMIT b OFFSET o` is `(rows.drop o).take b`. -/

/-- The offset loop of `SQLiteLoader.load_data`. -/
def loadGo (rows : List α) (b : Nat) (hb : 0 < b) (offset : Nat) : List (List α) :=
  if offset < rows.length then
    ((rows.drop offset).take b) :: loadGo rows b hb (offset + b)
  else []
termination_by rows.length - offset
decreasing_by omega

/-- `SQLiteLoader.load_data table batch_size` over a fixed table content
(`rows` in the store's native order).  A non-positive batch size never
terminates in the Python loop; the model yields no batches there. -/
def load_data (rows : List α) (batchSize : Nat) : List (List α) :=
  if h : 0 < batchSize then loadGo rows batchSize h 0 else []

namespace LoadData

/- ### Values and wall-clock time (`load_data.py`) -/

/-- A value read from the SQLite row or written to Postgres: SQL NULL,
a string, a number, or a `datetime.now()` result (the wall-clock tick at
which `datetime.now()` was called). -/
inductive PyVal where
  | null
  | str (s : String)
  | num (q : ℚ)
  | time (t : Nat)
deriving DecidableEq, Repr

/-- Python truthiness of such a value: `None` and `''` and `0` are falsy,
`datetime` objects are always truthy. -/
def PyVal.truthy : PyVal → Bool
  | .null => false
  | .str s => !s.isEmpty
  | .num q => decide (q ≠ 0)
  | .time _ => true

/-- `datetime.now()`: returns the current wall-clock tick and advances
the clock. -/
def now (c : Nat) : PyVal × Nat := (.time c, c + 1)

/-- Model of the Python idiom `value or datetime.now()` used by
`save_persons`/`save_genres`/`save_film_works` for `created`/`modified`:
short-circuits on a truthy value, otherwise calls `datetime.now()`. -/
def pyOrNow (v : PyVal) (c : Nat) : PyVal × Nat :=
  if v.truthy then (v, c) else now c

/-- Model of `value if value is not None else datetime.now()` used by
`save_person_film_work`/`save_genre_film_work` for `created`. -/
def ifNotNullElseNow (v : PyVal) (c : Nat) : PyVal × Nat :=
  if v ≠ PyVal.null then (v, c) else now c

/- ### Table records (columns as in load_data.py's INSERT statements) -/

/-- A `person` row (id, full_name, created, modified). -/
structure PersonRec where
  id : String
  full_name : PyVal
  created : PyVal
  modified : PyVal
deriving DecidableEq, Repr

/-- A `genre` row (id, name, description, created, modified). -/
structure GenreRec where
  id : String
  name : PyVal
  description : PyVal
  created : PyVal
  modified : PyVal
deriving DecidableEq, Repr

/-- A `film_work` row (id, title, description, creation_date, file_path,
rating, type, created, modified). -/
structure FilmWorkRec where
  id : String
  title : PyVal
  description : PyVal
  creation_date : PyVal
  file_path : PyVal
  rating : PyVal
  type : PyVal
  created : PyVal
  modified : PyVal
deriving DecidableEq, Repr

/-- A `person_film_work` row (id, role, created, film_work_id, person_id). -/
structure PFWRec where
  id : String
  role : String
  created : PyVal
  film_work_id : String
  person_id : String
deriving DecidableEq, Repr

/-- A `genre_film_work` row (id, created, film_work_id, genre_id). -/
structure GFWRec where
  id : String
  created : PyVal
  film_work_id : String
  genre_id : String
deriving DecidableEq, Repr

/-- The target Postgres database content (committed rows per table). -/
structure DB where
  person : List PersonRec
  genre : List GenreRec
  film_work : List FilmWorkRec
  person_film_work : List PFWRec
  genre_film_work : List GFWRec
deriving DecidableEq, Repr

/-- An empty target. -/
def emptyDB : DB := ⟨[], [], [], [], []⟩

/- ### Postgres transaction semantics for one batch

Each `save_*` method runs one transaction: each `cursor.execute(INSERT ...
ON CONFLICT (id) DO NOTHING)` is attempted inside `try/except` (the
`except` logs a warning naming the row id), and `conn.commit()` runs once
after the loop.  Postgres semantics: a failed statement puts the
transaction in the aborted state, every later statement of the
transaction fails with `InFailedSqlTransaction`, and the final `COMMIT`
of an aborted transaction is a rollback.  The conflict arbiter of every
INSERT in load_data.py is the primary key `(id)`; a row violating any
*other* declared constraint (the composite unique constraints and foreign
keys of the schema in `movies_admin/movies/models.py`, mirrored by the
target DDL) makes its statement fail. -/

/-- State of the current batch transaction over one table with row type `ρ`:
rows inserted so far (uncommitted), the aborted flag, and the ids named in
logged warnings. -/
structure Txn (ρ : Type) where
  pending : List ρ
  aborted : Bool
  warnings : List String
deriving Repr

/-- Transaction state at `BEGIN`. -/
def Txn.init : Txn ρ := ⟨[], false, []⟩

/-- One `cursor.execute` of an `INSERT ... ON CONFLICT (id) DO NOTHING`
wrapped in the per-row `try/except`: in an aborted transaction the
statement raises `InFailedSqlTransaction` (caught, warning logged); a
duplicate of the arbiter key `key` is skipped silently; a violation of a
non-arbiter unique key `uk` or of a foreign key (`fkOk r = false`) raises
(caught, warning logged) and aborts the transaction; otherwise the row
joins the pending inserts. -/
def execInsert (key : ρ → String) (uk : ρ → Option (List PyVal)) (fkOk : ρ → Bool)
    (committed : List ρ) (st : Txn ρ) (r : ρ) : Txn ρ :=
  if st.aborted then { st with warnings := st.warnings ++ [key r] }
  else if ∃ x ∈ committed ++ st.pending, key x = key r then st
  else if uk r ≠ none ∧ ∃ x ∈ committed ++ st.pending, uk x = uk r then
    { st with aborted := true, warnings := st.warnings ++ [key r] }
  else if fkOk r then { st with pending := st.pending ++ [r] }
  else { st with aborted := true, warnings := st.warnings ++ [key r] }

/-- `conn.commit()`: commits the pending inserts, unless the transaction
is aborted, in which case Postgres turns the COMMIT into a rollback. -/
def commitTxn (committed : List ρ) (st : Txn ρ) : List ρ :=
  if st.aborted then committed else committed ++ st.pending

/-- The per-row loop of a `save_*` method: `emit` builds the parameter
tuple of the INSERT from the source row (calling `datetime.now()` as the
Python expression does, threading the clock), then the statement is
executed. -/
def saveLoop (key : ρ → String) (uk : ρ → Option (List PyVal)) (fkOk : ρ → Bool)
    (emit : Nat → ι → ρ × Nat) (committed : List ρ) :
    List ι → Txn ρ → Nat → Txn ρ × Nat
  | [], st, c => (st, c)
  | row :: rest, st, c =>
    let rc := emit c row
    saveLoop key uk fkOk emit committed rest (execInsert key uk fkOk committed st rc.1) rc.2

/- ### The five save methods (`PostgresSaver`, load_data.py:91-200) -/

/-- Parameter tuple of `save_persons`' INSERT:
`(id, full_name, created or now(), modified or now())`. -/
def personEmit (c : Nat) (row : PersonRec) : PersonRec × Nat :=
  let created := pyOrNow row.created c
  let modified := pyOrNow row.modified created.2
  (⟨row.id, row.full_name, created.1, modified.1⟩, modified.2)

/-- Parameter tuple of `save_genres`' INSERT. -/
def genreEmit (c : Nat) (row : GenreRec) : GenreRec × Nat :=
  let created := pyOrNow row.created c
  let modified := pyOrNow row.modified created.2
  (⟨row.id, row.name, row.description, created.1, modified.1⟩, modified.2)

/-- Parameter tuple of `save_film_works`' INSERT:
`rating = row['rating'] if row['rating'] is not None else 0.0`, then
`created or now()`, `modified or now()`. -/
def filmWorkEmit (c : Nat) (row : FilmWorkRec) : FilmWorkRec × Nat :=
  let rating := if row.rating ≠ PyVal.null then row.rating else .num 0
  let created := pyOrNow row.created c
  let modified := pyOrNow row.modified created.2
  (⟨row.id, row.title, row.description, row.creation_date, row.file_path,
    rating, row.type, created.1, modified.1⟩, modified.2)

/-- Parameter tuple of `save_person_film_work`'s INSERT:
`created = row['created'] if row['created'] is not None else now()`. -/
def pfwEmit (c : Nat) (row : PFWRec) : PFWRec × Nat :=
  let created := ifNotNullElseNow row.created c
  (⟨row.id, row.role, created.1, row.film_work_id, row.person_id⟩, created.2)

/-- Parameter tuple of `save_genre_film_work`'s INSERT. -/
def gfwEmit (c : Nat) (row : GFWRec) : GFWRec × Nat :=
  let created := ifNotNullElseNow row.created c
  (⟨row.id, created.1, row.film_work_id, row.genre_id⟩, created.2)

/-- Declared unique key of `genre` besides the primary key:
`UniqueConstraint(fields=['name'])` (SQL NULLs never conflict). -/
def genreUk (g : GenreRec) : Option (List PyVal) :=
  if g.name = PyVal.null then none else some [g.name]

/-- Declared composite unique key of `person_film_work`:
`(film_work, person, role)`. -/
def pfwUk (r : PFWRec) : Option (List PyVal) :=
  some [.str r.film_work_id, .str r.person_id, .str r.role]

/-- Declared composite unique key of `genre_film_work`:
`(genre, film_work)`. -/
def gfwUk (r : GFWRec) : Option (List PyVal) :=
  some [.str r.genre_id, .str r.film_work_id]

/-- `PostgresSaver.save_persons` (load_data.py:95-111): returns the
database after `commit()`, the clock, and the ids of logged warnings. -/
def save_persons (data : List PersonRec) (db : DB) (c : Nat) :
    DB × Nat × List String :=
  let res := saveLoop (·.id) (fun _ => none) (fun _ => true)
    personEmit db.person data Txn.init c
  ({ db with person := commitTxn db.person res.1 }, res.2, res.1.warnings)

/-- `PostgresSaver.save_genres` (load_data.py:113-130). -/
def save_genres (data : List GenreRec) (db : DB) (c : Nat) :
    DB × Nat × List String :=
  let res := saveLoop (·.id) genreUk (fun _ => true)
    genreEmit db.genre data Txn.init c
  ({ db with genre := commitTxn db.genre res.1 }, res.2, res.1.warnings)

/-- `PostgresSaver.save_film_works` (load_data.py:132-153). -/
def save_film_works (data : List FilmWorkRec) (db : DB) (c : Nat) :
    DB × Nat × List String :=
  let res := saveLoop (·.id) (fun _ => none) (fun _ => true)
    filmWorkEmit db.film_work data Txn.init c
  ({ db with film_work := commitTxn db.film_work res.1 }, res.2, res.1.warnings)

/-- `PostgresSaver.save_person_film_work` (load_data.py:155-177).
The foreign keys `film_work_id → film_work(id)` and
`person_id → person(id)` are checked against the committed parents. -/
def save_person_film_work (data : List PFWRec) (db : DB) (c : Nat) :
    DB × Nat × List String :=
  let fk := fun (r : PFWRec) =>
    decide ((∃ f ∈ db.film_work, f.id = r.film_work_id) ∧
            (∃ p ∈ db.person, p.id = r.person_id))
  let res := saveLoop (·.id) pfwUk fk pfwEmit db.person_film_work data Txn.init c
  ({ db with person_film_work := commitTxn db.person_film_work res.1 },
   res.2, res.1.warnings)

/-- `PostgresSaver.save_genre_film_work` (load_data.py:179-200). -/
def save_genre_film_work (data : List GFWRec) (db : DB) (c : Nat) :
    DB × Nat × List String :=
  let fk := fun (r : GFWRec) =>
    decide ((∃ f ∈ db.film_work, f.id = r.film_work_id) ∧
            (∃ g ∈ db.genre, g.id = r.genre_id))
  let res := saveLoop (·.id) gfwUk fk gfwEmit db.genre_film_work data Txn.init c
  ({ db with genre_film_work := commitTxn db.genre_film_work res.1 },
   res.2, res.1.warnings)

/- ### The orchestrator (`load_from_sqlite`, load_data.py:203-239) -/

/-- The SQLite source content, one list per table in native order. -/
structure Source where
  person : List PersonRec
  genre : List GenreRec
  film_work : List FilmWorkRec
  person_film_work : List PFWRec
  genre_film_work : List GFWRec

/-- Run state threaded through the orchestrator: target content,
wall clock, warnings logged so far. -/
structure RunState where
  db : DB
  clock : Nat
  warnings : List String
deriving Repr

/-- Feed a sequence of batches, in order, to one `save_*` method. -/
def runBatchList (save : List ι → DB → Nat → DB × Nat × List String) :
    List (List ι) → RunState → RunState
  | [], s => s
  | batch :: rest, s =>
    let r := save batch s.db s.clock
    runBatchList save rest ⟨r.1, r.2.1, s.warnings ++ r.2.2⟩

/-- One `for batch in loader.load_data(table): saver.save_x(batch)` loop. -/
def runBatches (save : List ι → DB → Nat → DB × Nat × List String)
    (rows : List ι) (s : RunState) : RunState :=
  runBatchList save (load_data rows 1000) s

/-- `load_from_sqlite`: the five tables in plan order, batch size 1000. -/
def load_from_sqlite (src : Source) (db : DB) (c : Nat) : RunState :=
  let s1 := runBatches save_persons src.person ⟨db, c, []⟩
  let s2 := runBatches save_genres src.genre s1
  let s3 := runBatches save_film_works src.film_work s2
  let s4 := runBatches save_person_film_work src.person_film_work s3
  runBatches save_genre_film_work src.genre_film_work s4

end LoadData

/- ### Concrete fixtures used by individual claim theorems -/

namespace Fix

open Checker LoadData

/-- Sqlite rows with two field mismatches against `c3p` (row 1 column
`title`, row 2 column `x`). -/
def c3s : List Checker.Row :=
  [[("id", .str "1"), ("title", .str "a"), ("x", .num 1)],
   [("id", .str "2"), ("x", .num 2)]]

/-- Postgres rows for the two-mismatch table. -/
def c3p : List Checker.Row :=
  [[("id", .str "1"), ("title", .str "b"), ("x", .num 1)],
   [("id", .str "2"), ("x", .num 3)]]

/-- A table whose counts differ (1 vs 2, the row fetches matching the
counts, as `SELECT COUNT(*)` and `SELECT *` on the same data always do). -/
def c4t : Checker.TableData :=
  ⟨"person", 1, 2, [[("id", .str "1"), ("full_name", .str "Ann")]],
   [[("id", .str "1"), ("full_name", .str "Ann")],
    [("id", .str "2"), ("full_name", .str "Bob")]]⟩

/-- A second table that passes both checks. -/
def c4t2 : Checker.TableData :=
  ⟨"genre", 1, 1, [[("id", .str "g1"), ("name", .str "Drama")]],
   [[("id", .str "g1"), ("name", .str "Drama")]]⟩

/-- A table whose `created` column carries a `+00` timestamp without
fractional seconds: parsing it raises ValueError. -/
def c10bad : Checker.TableData :=
  ⟨"genre", 1, 1, [[("id", .str "g1"), ("created", .str "2023-05-01 12:00:00+00")]],
   [[("id", .str "g1"), ("created", .dt ⟨2023, 5, 1, 12, 0, 0, 0⟩ (some 0))]]⟩

/-- A table that passes, placed after `c10bad`. -/
def c10after : Checker.TableData :=
  ⟨"film_work", 0, 0, [], []⟩

/-- Target content for the link-table claims: parents `P1`, `P3`, `F1`,
`G1` committed, one `person_film_work` row `A` with key triple
`(F1, P1, actor)` and one `genre_film_work` row `GA` with pair `(G1, F1)`. -/
def c1db : LoadData.DB :=
  { person := [⟨"P1", .str "Ann", .time 0, .time 0⟩, ⟨"P3", .str "Bob", .time 0, .time 0⟩],
    genre := [⟨"G1", .str "Drama", .null, .time 0, .time 0⟩],
    film_work := [⟨"F1", .str "T", .null, .null, .null, .num 5, .str "movie", .time 0, .time 0⟩],
    person_film_work := [⟨"A", "actor", .time 1, "F1", "P1"⟩],
    genre_film_work := [⟨"GA", .time 1, "F1", "G1"⟩] }

/-- Target content for the failure-isolation scenario: parents committed,
no link rows yet. -/
def c2db : LoadData.DB :=
  { person := [⟨"P1", .str "Ann", .time 0, .time 0⟩, ⟨"P3", .str "Bob", .time 0, .time 0⟩],
    genre := [],
    film_work := [⟨"F1", .str "T", .null, .null, .null, .num 5, .str "movie", .time 0, .time 0⟩],
    person_film_work := [],
    genre_film_work := [] }


/-- A small internally consistent source for the idempotence scenario:
one row per table, link rows referencing the present parents. -/
def c5src : LoadData.Source :=
  { person := [⟨"P1", .str "Ann", .null, .null⟩],
    genre := [⟨"G1", .str "Drama", .null, .null, .null⟩],
    film_work := [⟨"F1", .str "T", .null, .null, .null, .null, .str "movie", .null, .null⟩],
    person_film_work := [⟨"W1", "actor", .null, "F1", "P1"⟩],
    genre_film_work := [⟨"X1", .null, "F1", "G1"⟩] }

end Fix

/-! ## Theorems -/

section CheckerLemmas

open Checker

/-- An error in a prefix of the row scan decides the whole scan: the rows
after it are never examined. -/
theorem checkRows_error_append {xs ys : List (Checker.Row × Checker.Row)}
    {e : CheckErr} (h : checkRows xs = .error e) :
    checkRows (xs ++ ys) = .error e := by
  induction xs with
  | nil => simp [checkRows] at h
  | cons p rest ih =>
    obtain ⟨srow, prow⟩ := p
    rw [List.cons_append]
    rw [checkRows] at h ⊢
    cases hc : checkColumns (rowIdOf srow) prow srow with
    | error e' => rw [hc] at h; exact h
    | ok u => rw [hc] at h; exact ih h

end CheckerLemmas

/-- C8: the source timestamp string "2023-05-01 12:00:00.000000+00" parses
(after stripping the literal `+00` marker) to the naive timestamp
2023-05-01 12:00:00, the tz-aware target timestamp 2023-05-01T12:00:00+00:00
normalizes (UTC conversion, tzinfo dropped) to the same naive timestamp,
and the checker's column comparison of the two reports equality. -/
theorem c8_timestamp_roundtrip :
    Checker.convert_sqlite_datetime (.str "2023-05-01 12:00:00.000000+00")
      = .ok (.dt ⟨2023, 5, 1, 12, 0, 0, 0⟩ Option.none)
  ∧ Checker.convert_postgres_datetime (.dt ⟨2023, 5, 1, 12, 0, 0, 0⟩ (some 0))
      = .dt ⟨2023, 5, 1, 12, 0, 0, 0⟩ Option.none
  ∧ Checker.checkColumns (.str "F1")
      [("created", .dt ⟨2023, 5, 1, 12, 0, 0, 0⟩ (some 0))]
      [("created", .str "2023-05-01 12:00:00.000000+00")] = .ok () := by
  refine ⟨by decide, by decide, by decide⟩

/-- C9: in the content check, the source-NULL-equals-target-0.0 equivalence
applies to any column name whatsoever (including `created`/`modified`,
whose normalizations pass NULL and 0.0 through unchanged), and only in one
direction: source NULL with target 0.0 passes, source 0.0 with target NULL
is reported as a mismatch naming the row id and the column. -/
theorem c9_null_zero_one_way (c : String) (idv : Checker.CVal) :
    Checker.checkColumns idv [(c, .num 0)] [(c, Checker.CVal.null)] = .ok ()
  ∧ Checker.checkColumns idv [(c, Checker.CVal.null)] [(c, .num 0)]
      = .error (.fieldMismatch idv c) := by
  constructor <;>
  · by_cases h : c = "created" ∨ c = "modified" <;>
      simp [Checker.checkColumns, Checker.rowLookup, h,
        Checker.convert_sqlite_datetime, Checker.convert_postgres_datetime,
        Checker.pyEq]

/-- C3 counterexample: on a table with two field mismatches (row 1 column
`title`, row 2 column `x`) the code's content check stops at and reports
only the first one, where the spec-described aggregation finds both. -/
theorem c3_ctex :
    Checker.compare_table_data Fix.c3s Fix.c3p
      = .error (.fieldMismatch (.str "1") "title")
  ∧ Checker.specRowMismatches (Fix.c3s.zip Fix.c3p)
      = [.fieldMismatch (.str "1") "title", .fieldMismatch (.str "2") "x"] := by
  refine ⟨by decide, by decide⟩

/-- C3 amended: the first field mismatch of a table is recorded with the
row id and column name and raises AssertionError, aborting the content
check of that table; the remaining rows are never examined (any suffix of
rows can be appended without changing the reported result). -/
theorem c3_first_mismatch_stops (s p t t' : List Checker.Row)
    (e : Checker.CheckErr) (h1 : s.length = p.length) (h2 : t.length = t'.length)
    (h : Checker.checkRows (s.zip p) = .error e) :
    Checker.compare_table_data s p = .error e
  ∧ Checker.compare_table_data (s ++ t) (p ++ t') = .error e := by
  constructor
  · simp [Checker.compare_table_data, h1, h]
  · have hlen : (s ++ t).length = (p ++ t').length := by simp [h1, h2]
    have hz : (s ++ t).zip (p ++ t') = s.zip p ++ t.zip t' := List.zip_append h1
    simp [Checker.compare_table_data, hlen, hz, checkRows_error_append h]

/-- C3 witness: the two-mismatch table reports exactly its first mismatch,
with or without a further row appended. -/
theorem c3_first_mismatch_stops_witness :
    Checker.compare_table_data Fix.c3s Fix.c3p
      = .error (.fieldMismatch (.str "1") "title")
  ∧ Checker.compare_table_data (Fix.c3s ++ [[("id", Checker.CVal.str "3")]])
      (Fix.c3p ++ [[("id", Checker.CVal.str "3")]])
      = .error (.fieldMismatch (.str "1") "title") :=
  c3_first_mismatch_stops Fix.c3s Fix.c3p
    [[("id", Checker.CVal.str "3")]] [[("id", Checker.CVal.str "3")]]
    (.fieldMismatch (.str "1") "title") (by decide) (by decide) (by decide)

/-- C4 counterexample: for a table whose counts differ, the code records
only the count failure (`checkTable` consults nothing else), where the
spec's independent execution of both checks yields a count failure and a
content-check failure; verification of the next table still happens. -/
theorem c4_ctex :
    Checker.checkTable Fix.c4t = .error .countMismatch
  ∧ Checker.specCheckTableIndependent Fix.c4t = [.countMismatch, .lenMismatch]
  ∧ Checker.test_data_integrity [Fix.c4t, Fix.c4t2]
      = .ok [.failed .countMismatch, .passed] := by
  refine ⟨by decide, by decide, by decide⟩

/-- C4 amended: the two checks of a table run inside one guarded block:
when the count check fails, that table's outcome is the count failure and
its content is never compared (the row fetches are universally
quantified), while the remaining tables are verified exactly as they
would be on their own. -/
theorem c4_count_fail_skips_content (name : String) (sc pc : Nat)
    (sr pr : List Checker.Row) (rest : List Checker.TableData) (h : sc ≠ pc) :
    Checker.test_data_integrity (⟨name, sc, pc, sr, pr⟩ :: rest)
      = (match Checker.test_data_integrity rest with
         | .ok l => .ok (.failed .countMismatch :: l)
         | .error e => .error e)
  ∧ Checker.checkTable ⟨name, sc, pc, sr, pr⟩ = .error .countMismatch := by
  have hct : Checker.checkTable ⟨name, sc, pc, sr, pr⟩ = .error .countMismatch := by
    simp [Checker.checkTable, Checker.compare_table_count, h]
  refine ⟨?_, hct⟩
  rw [Checker.test_data_integrity, hct]
  simp [Checker.CheckErr.isAssertion]

/-- C4 witness: a count-mismatched table (with arbitrary content) is
reported as a count failure and the following table is still checked. -/
theorem c4_count_fail_skips_content_witness :
    Checker.test_data_integrity [⟨"person", 1, 2, [], []⟩, Fix.c4t2]
      = (match Checker.test_data_integrity [Fix.c4t2] with
         | .ok l => .ok (.failed .countMismatch :: l)
         | .error e => .error e)
  ∧ Checker.checkTable ⟨"person", 1, 2, [], []⟩ = .error .countMismatch :=
  c4_count_fail_skips_content "person" 1 2 [] [] [Fix.c4t2] (by decide)

/-- C10: a string containing `+00` that, after removal of every `+00`
occurrence, does not match `%Y-%m-%d %H:%M:%S.%f` makes
`convert_sqlite_datetime` raise ValueError; and since the driver catches
only AssertionError, any table whose check raises a non-AssertionError
aborts the verification run for that table and every table after it
(whatever those tables contain). -/
theorem c10_valueerror_aborts :
    (∀ s : String, containsPlus00 s.data = true →
      Checker.strptimeYmdHmsF (stripPlus00 s.data) = none →
      Checker.convert_sqlite_datetime (.str s) = .error .valueError)
  ∧ (∀ (pre : List Checker.TableData) (t : Checker.TableData)
       (post : List Checker.TableData) (e : Checker.CheckErr),
      (∀ t' ∈ pre, ∀ e', Checker.checkTable t' = .error e' → e'.isAssertion = true) →
      Checker.checkTable t = .error e → e.isAssertion = false →
      Checker.test_data_integrity (pre ++ t :: post) = .error e) := by
  constructor
  · intro s h1 h2
    simp [Checker.convert_sqlite_datetime, h1, h2]
  · intro pre t post e
    induction pre with
    | nil =>
      intro _ ht he
      simp [Checker.test_data_integrity, ht, he]
    | cons t' rest ih =>
      intro hpre ht he
      have hrest : Checker.test_data_integrity (rest ++ t :: post) = .error e :=
        ih (fun x hx e' h' => hpre x (List.mem_cons_of_mem _ hx) e' h') ht he
      cases hct : Checker.checkTable t' with
      | ok u => simp [Checker.test_data_integrity, hct, hrest]
      | error e' =>
        have ha : e'.isAssertion = true := hpre t' (List.mem_cons_self _ _) e' hct
        simp [Checker.test_data_integrity, hct, ha, hrest]

/-- C10 witness: "2023-05-01 12:00:00+00" (no fractional seconds) raises
ValueError, and a table carrying it in `created` aborts the run, leaving
the table after it unverified. -/
theorem c10_valueerror_aborts_witness :
    Checker.convert_sqlite_datetime (.str "2023-05-01 12:00:00+00")
      = .error .valueError
  ∧ Checker.test_data_integrity ([] ++ Fix.c10bad :: [Fix.c10after])
      = .error .valueError :=
  ⟨c10_valueerror_aborts.1 "2023-05-01 12:00:00+00" (by decide) (by decide),
   c10_valueerror_aborts.2 [] Fix.c10bad [Fix.c10after] .valueError
     (by simp) (by decide) (by decide)⟩

section SaveLemmas

open LoadData

/-- A statement in an aborted transaction raises (caught and logged). -/
theorem execInsert_aborted {ρ : Type} {key : ρ → String}
    {uk : ρ → Option (List PyVal)} {fkOk : ρ → Bool}
    {committed : List ρ} {st : Txn ρ} {r : ρ} (hab : st.aborted = true) :
    execInsert key uk fkOk committed st r
      = { st with warnings := st.warnings ++ [key r] } := by
  simp [execInsert, hab]

/-- A duplicate of the arbiter key is skipped silently, leaving the
transaction state untouched. -/
theorem execInsert_key_present {ρ : Type} {key : ρ → String}
    {uk : ρ → Option (List PyVal)} {fkOk : ρ → Bool}
    {committed : List ρ} {st : Txn ρ} {r : ρ} (hab : st.aborted = false)
    (h : ∃ x ∈ committed ++ st.pending, key x = key r) :
    execInsert key uk fkOk committed st r = st := by
  simp only [execInsert, hab, Bool.false_eq_true, if_false]
  rw [if_pos h]

/-- A fresh row that violates no constraint joins the pending inserts. -/
theorem execInsert_fresh {ρ : Type} {key : ρ → String}
    {uk : ρ → Option (List PyVal)} {fkOk : ρ → Bool}
    {committed : List ρ} {st : Txn ρ} {r : ρ} (hab : st.aborted = false)
    (hk : ¬ ∃ x ∈ committed ++ st.pending, key x = key r)
    (hu : ¬ (uk r ≠ none ∧ ∃ x ∈ committed ++ st.pending, uk x = uk r))
    (hfk : fkOk r = true) :
    execInsert key uk fkOk committed st r
      = { st with pending := st.pending ++ [r] } := by
  simp only [execInsert, hab, Bool.false_eq_true, if_false]
  rw [if_neg hk, if_neg hu, if_pos hfk]

end SaveLemmas

/-- C1 counterexample: a `person_film_work` row with a new id `B` whose
key triple `(F1, P1, actor)` already exists in the target is not skipped
silently — its insert (conflict target `id`) violates the composite
unique constraint, and the caught error logs a warning naming `B`;
likewise a `genre_film_work` row `GB` with a new id and the existing
pair `(G1, F1)`. -/
theorem c1_ctex :
    (LoadData.save_person_film_work [⟨"B", "actor", .time 9, "F1", "P1"⟩]
        Fix.c1db 0).2.2 = ["B"]
  ∧ (LoadData.save_genre_film_work [⟨"GB", .time 9, "F1", "G1"⟩]
        Fix.c1db 0).2.2 = ["GB"]
  ∧ (LoadData.save_person_film_work [⟨"B", "actor", .time 9, "F1", "P1"⟩]
        Fix.c1db 0).1 = Fix.c1db
  ∧ (LoadData.save_genre_film_work [⟨"GB", .time 9, "F1", "G1"⟩]
        Fix.c1db 0).1 = Fix.c1db := by
  refine ⟨by decide, by decide, by decide, by decide⟩

/-- C1 amended: every INSERT of the writer uses the primary id as its
conflict target, for base tables and link tables alike: a single-row
batch whose id already exists in the target is skipped silently (no
warning, no change) in all five tables, while a link row with a fresh id
whose declared composite key already exists is rejected by the composite
unique constraint — the error is caught and logged (target unchanged,
warning naming the row id), not a silent conflict skip. -/
theorem c1_conflict_target_is_id :
    (∀ (db : LoadData.DB) (c : Nat) (r : LoadData.PersonRec),
      (∃ x ∈ db.person, x.id = r.id) →
      (LoadData.save_persons [r] db c).1 = db
        ∧ (LoadData.save_persons [r] db c).2.2 = [])
  ∧ (∀ (db : LoadData.DB) (c : Nat) (r : LoadData.GenreRec),
      (∃ x ∈ db.genre, x.id = r.id) →
      (LoadData.save_genres [r] db c).1 = db
        ∧ (LoadData.save_genres [r] db c).2.2 = [])
  ∧ (∀ (db : LoadData.DB) (c : Nat) (r : LoadData.FilmWorkRec),
      (∃ x ∈ db.film_work, x.id = r.id) →
      (LoadData.save_film_works [r] db c).1 = db
        ∧ (LoadData.save_film_works [r] db c).2.2 = [])
  ∧ (∀ (db : LoadData.DB) (c : Nat) (r : LoadData.PFWRec),
      (∃ x ∈ db.person_film_work, x.id = r.id) →
      (LoadData.save_person_film_work [r] db c).1 = db
        ∧ (LoadData.save_person_film_work [r] db c).2.2 = [])
  ∧ (∀ (db : LoadData.DB) (c : Nat) (r : LoadData.GFWRec),
      (∃ x ∈ db.genre_film_work, x.id = r.id) →
      (LoadData.save_genre_film_work [r] db c).1 = db
        ∧ (LoadData.save_genre_film_work [r] db c).2.2 = [])
  ∧ (∀ (db : LoadData.DB) (c : Nat) (r : LoadData.PFWRec),
      (¬ ∃ x ∈ db.person_film_work, x.id = r.id) →
      (∃ x ∈ db.person_film_work, x.film_work_id = r.film_work_id
        ∧ x.person_id = r.person_id ∧ x.role = r.role) →
      (LoadData.save_person_film_work [r] db c).1 = db
        ∧ (LoadData.save_person_film_work [r] db c).2.2 = [r.id])
  ∧ (∀ (db : LoadData.DB) (c : Nat) (r : LoadData.GFWRec),
      (¬ ∃ x ∈ db.genre_film_work, x.id = r.id) →
      (∃ x ∈ db.genre_film_work, x.genre_id = r.genre_id
        ∧ x.film_work_id = r.film_work_id) →
      (LoadData.save_genre_film_work [r] db c).1 = db
        ∧ (LoadData.save_genre_film_work [r] db c).2.2 = [r.id]) := by
  refine ⟨?_, ?_, ?_, ?_, ?_, ?_, ?_⟩
  · intro db c r h
    constructor <;>
      simp [LoadData.save_persons, LoadData.saveLoop, LoadData.execInsert,
        LoadData.personEmit, LoadData.Txn.init, LoadData.commitTxn,
        LoadData.pyOrNow, h]
  · intro db c r h
    constructor <;>
      simp [LoadData.save_genres, LoadData.saveLoop, LoadData.execInsert,
        LoadData.genreEmit, LoadData.Txn.init, LoadData.commitTxn,
        LoadData.pyOrNow, h]
  · intro db c r h
    constructor <;>
      simp [LoadData.save_film_works, LoadData.saveLoop, LoadData.execInsert,
        LoadData.filmWorkEmit, LoadData.Txn.init, LoadData.commitTxn,
        LoadData.pyOrNow, h]
  · intro db c r h
    constructor <;>
      simp [LoadData.save_person_film_work, LoadData.saveLoop, LoadData.execInsert,
        LoadData.pfwEmit, LoadData.Txn.init, LoadData.commitTxn,
        LoadData.ifNotNullElseNow, h]
  · intro db c r h
    constructor <;>
      simp [LoadData.save_genre_film_work, LoadData.saveLoop, LoadData.execInsert,
        LoadData.gfwEmit, LoadData.Txn.init, LoadData.commitTxn,
        LoadData.ifNotNullElseNow, h]
  · intro db c r hk hu
    constructor <;>
      simp [LoadData.save_person_film_work, LoadData.saveLoop, LoadData.execInsert,
        LoadData.pfwEmit, LoadData.pfwUk, LoadData.Txn.init, LoadData.commitTxn,
        LoadData.ifNotNullElseNow, hk, hu]
  · intro db c r hk hu
    constructor <;>
      simp [LoadData.save_genre_film_work, LoadData.saveLoop, LoadData.execInsert,
        LoadData.gfwEmit, LoadData.gfwUk, LoadData.Txn.init, LoadData.commitTxn,
        LoadData.ifNotNullElseNow, hk, hu]

/-- C1 witness: concrete instances of all seven cases — duplicate ids
skipped silently in all five tables, duplicate composite keys with fresh
ids logged as warnings in both link tables. -/
theorem c1_conflict_target_is_id_witness :
    ((LoadData.save_persons [⟨"P1", .str "Z", .null, .null⟩] Fix.c1db 0).1 = Fix.c1db
      ∧ (LoadData.save_persons [⟨"P1", .str "Z", .null, .null⟩] Fix.c1db 0).2.2 = [])
  ∧ ((LoadData.save_genres [⟨"G1", .str "Other", .null, .null, .null⟩] Fix.c1db 0).1 = Fix.c1db
      ∧ (LoadData.save_genres [⟨"G1", .str "Other", .null, .null, .null⟩] Fix.c1db 0).2.2 = [])
  ∧ ((LoadData.save_film_works
        [⟨"F1", .str "T2", .null, .null, .null, .null, .str "movie", .null, .null⟩]
        Fix.c1db 0).1 = Fix.c1db
      ∧ (LoadData.save_film_works
        [⟨"F1", .str "T2", .null, .null, .null, .null, .str "movie", .null, .null⟩]
        Fix.c1db 0).2.2 = [])
  ∧ ((LoadData.save_person_film_work [⟨"A", "writer", .null, "F2", "P9"⟩] Fix.c1db 0).1 = Fix.c1db
      ∧ (LoadData.save_person_film_work [⟨"A", "writer", .null, "F2", "P9"⟩] Fix.c1db 0).2.2 = [])
  ∧ ((LoadData.save_genre_film_work [⟨"GA", .null, "F9", "G9"⟩] Fix.c1db 0).1 = Fix.c1db
      ∧ (LoadData.save_genre_film_work [⟨"GA", .null, "F9", "G9"⟩] Fix.c1db 0).2.2 = [])
  ∧ ((LoadData.save_person_film_work [⟨"B", "actor", .time 9, "F1", "P1"⟩] Fix.c1db 0).1 = Fix.c1db
      ∧ (LoadData.save_person_film_work [⟨"B", "actor", .time 9, "F1", "P1"⟩] Fix.c1db 0).2.2 = ["B"])
  ∧ ((LoadData.save_genre_film_work [⟨"GB", .time 9, "F1", "G1"⟩] Fix.c1db 0).1 = Fix.c1db
      ∧ (LoadData.save_genre_film_work [⟨"GB", .time 9, "F1", "G1"⟩] Fix.c1db 0).2.2 = ["GB"]) :=
  ⟨c1_conflict_target_is_id.1 Fix.c1db 0 _ (by decide),
   c1_conflict_target_is_id.2.1 Fix.c1db 0 _ (by decide),
   c1_conflict_target_is_id.2.2.1 Fix.c1db 0 _ (by decide),
   c1_conflict_target_is_id.2.2.2.1 Fix.c1db 0 _ (by decide),
   c1_conflict_target_is_id.2.2.2.2.1 Fix.c1db 0 _ (by decide),
   c1_conflict_target_is_id.2.2.2.2.2.1 Fix.c1db 0 _ (by decide) (by decide),
   c1_conflict_target_is_id.2.2.2.2.2.2 Fix.c1db 0 _ (by decide) (by decide)⟩

/-- C2: evaluation of the code at the failing input.  For the 3-row
`person_film_work` batch whose middle row has an invalid `film_work_id`,
the target is left completely unchanged — rows 1 and 3 are NOT committed:
the foreign-key failure of row 2 aborts the Postgres transaction, row 3's
insert then fails with InFailedSqlTransaction (logged), and the final
COMMIT of the aborted transaction is a rollback. -/
theorem c2_failed_row_poisons_batch :
    LoadData.save_person_film_work
      [⟨"pw1", "actor", .time 7, "F1", "P1"⟩,
       ⟨"pw2", "actor", .time 7, "F404", "P1"⟩,
       ⟨"pw3", "actor", .time 7, "F1", "P3"⟩] Fix.c2db 0
      = (Fix.c2db, 0, ["pw2", "pw3"])
  ∧ Fix.c2db.person_film_work = [] := by
  refine ⟨by decide, by decide⟩

/-- C7 counterexample: a `person` row whose source `created` is the
non-null (but falsy) empty string is nevertheless written with the
wall-clock time, because the code uses `row['created'] or datetime.now()`
— so "non-null source values are written unchanged" fails. -/
theorem c7_ctex :
    LoadData.save_persons
      [⟨"p1", .str "Ann", .str "", .str "2020-01-01 00:00:00.000000+00"⟩]
      LoadData.emptyDB 0
      = ({ LoadData.emptyDB with person :=
            [⟨"p1", .str "Ann", .time 0, .str "2020-01-01 00:00:00.000000+00"⟩] }, 1, [])
  ∧ LoadData.PyVal.str "" ≠ LoadData.PyVal.null := by
  refine ⟨by decide, by decide⟩

/-- C7 amended: a film_work row's NULL rating is written as 0.0 and a
non-NULL rating (even 0.0 itself) is written unchanged; `created` and
`modified` of base-table rows are replaced by the wall-clock time exactly
when the source value is Python-falsy — NULL, but also the empty string —
and the replacement is evaluated per row (two rows defaulting in the same
batch receive distinct clock ticks, not a batch-constant stamp); truthy
source values are written unchanged. -/
theorem c7_defaulting :
    (∀ (db : LoadData.DB) (c : Nat) (row : LoadData.FilmWorkRec),
      (¬ ∃ x ∈ db.film_work, x.id = row.id) →
      (LoadData.save_film_works [row] db c).1.film_work
        = db.film_work ++ [⟨row.id, row.title, row.description, row.creation_date,
            row.file_path,
            (if row.rating ≠ LoadData.PyVal.null then row.rating else .num 0),
            row.type, (LoadData.pyOrNow row.created c).1,
            (LoadData.pyOrNow row.modified (LoadData.pyOrNow row.created c).2).1⟩])
  ∧ (∀ c : Nat, LoadData.pyOrNow LoadData.PyVal.null c = (.time c, c + 1))
  ∧ (∀ (c : Nat) (s : String), s ≠ "" → LoadData.pyOrNow (.str s) c = (.str s, c))
  ∧ (∀ c : Nat, LoadData.pyOrNow (LoadData.PyVal.str "") c = (.time c, c + 1))
  ∧ (∀ (db : LoadData.DB) (c : Nat) (r1 r2 : LoadData.PersonRec),
      r1.created = LoadData.PyVal.null → r1.modified = LoadData.PyVal.null →
      r2.created = LoadData.PyVal.null → r2.modified = LoadData.PyVal.null →
      (¬ ∃ x ∈ db.person, x.id = r1.id) → (¬ ∃ x ∈ db.person, x.id = r2.id) →
      r2.id ≠ r1.id →
      (LoadData.save_persons [r1, r2] db c).1.person
        = db.person ++ [⟨r1.id, r1.full_name, .time c, .time (c + 1)⟩,
                        ⟨r2.id, r2.full_name, .time (c + 2), .time (c + 3)⟩]) := by
  refine ⟨?_, ?_, ?_, ?_, ?_⟩
  · intro db c row h
    simp [LoadData.save_film_works, LoadData.saveLoop, LoadData.execInsert,
      LoadData.filmWorkEmit, LoadData.Txn.init, LoadData.commitTxn, h]
  · intro c; rfl
  · intro c s hs
    simp [LoadData.pyOrNow, LoadData.PyVal.truthy, String.isEmpty_iff, hs]
  · intro c; rfl
  · intro db c r1 r2 h1c h1m h2c h2m hf1 hf2 hne
    obtain ⟨i1, n1, cr1, m1⟩ := r1
    obtain ⟨i2, n2, cr2, m2⟩ := r2
    dsimp only at h1c h1m h2c h2m hf1 hf2 hne
    subst h1c h1m h2c h2m
    have hne' : i1 ≠ i2 := fun hh => hne hh.symm
    have s1 : LoadData.execInsert (fun x : LoadData.PersonRec => x.id)
        (fun _ => (none : Option (List LoadData.PyVal))) (fun _ => true)
        db.person LoadData.Txn.init
        ⟨i1, n1, LoadData.PyVal.time c, LoadData.PyVal.time (c + 1)⟩
        = ⟨[⟨i1, n1, LoadData.PyVal.time c, LoadData.PyVal.time (c + 1)⟩], false, []⟩ :=
      execInsert_fresh rfl (by simpa [LoadData.Txn.init] using hf1) (by simp) rfl
    have s2 : LoadData.execInsert (fun x : LoadData.PersonRec => x.id)
        (fun _ => (none : Option (List LoadData.PyVal))) (fun _ => true)
        db.person ⟨[⟨i1, n1, LoadData.PyVal.time c, LoadData.PyVal.time (c + 1)⟩], false, []⟩
        ⟨i2, n2, LoadData.PyVal.time (c + 2), LoadData.PyVal.time (c + 3)⟩
        = ⟨[⟨i1, n1, LoadData.PyVal.time c, LoadData.PyVal.time (c + 1)⟩,
            ⟨i2, n2, LoadData.PyVal.time (c + 2), LoadData.PyVal.time (c + 3)⟩], false, []⟩ := by
      refine execInsert_fresh rfl ?_ (by simp) rfl
      rintro ⟨x, hx, hid⟩
      rcases List.mem_append.mp hx with hx | hx
      · exact hf2 ⟨x, hx, hid⟩
      · rw [List.mem_singleton] at hx
        subst hx
        exact hne' hid
    show LoadData.commitTxn db.person
        (LoadData.saveLoop (fun x : LoadData.PersonRec => x.id)
          (fun _ => (none : Option (List LoadData.PyVal))) (fun _ => true)
          LoadData.personEmit db.person
          [⟨i1, n1, LoadData.PyVal.null, LoadData.PyVal.null⟩,
           ⟨i2, n2, LoadData.PyVal.null, LoadData.PyVal.null⟩]
          LoadData.Txn.init c).1
        = db.person ++ [⟨i1, n1, LoadData.PyVal.time c, LoadData.PyVal.time (c + 1)⟩,
            ⟨i2, n2, LoadData.PyVal.time (c + 2), LoadData.PyVal.time (c + 3)⟩]
    show LoadData.commitTxn db.person
        (LoadData.saveLoop (fun x : LoadData.PersonRec => x.id)
          (fun _ => (none : Option (List LoadData.PyVal))) (fun _ => true)
          LoadData.personEmit db.person
          [⟨i2, n2, LoadData.PyVal.null, LoadData.PyVal.null⟩]
          (LoadData.execInsert (fun x : LoadData.PersonRec => x.id)
            (fun _ => (none : Option (List LoadData.PyVal))) (fun _ => true)
            db.person LoadData.Txn.init
            ⟨i1, n1, LoadData.PyVal.time c, LoadData.PyVal.time (c + 1)⟩) (c + 2)).1
        = db.person ++ [⟨i1, n1, LoadData.PyVal.time c, LoadData.PyVal.time (c + 1)⟩,
            ⟨i2, n2, LoadData.PyVal.time (c + 2), LoadData.PyVal.time (c + 3)⟩]
    rw [s1]
    show LoadData.commitTxn db.person
        (LoadData.saveLoop (fun x : LoadData.PersonRec => x.id)
          (fun _ => (none : Option (List LoadData.PyVal))) (fun _ => true)
          LoadData.personEmit db.person ([] : List LoadData.PersonRec)
          (LoadData.execInsert (fun x : LoadData.PersonRec => x.id)
            (fun _ => (none : Option (List LoadData.PyVal))) (fun _ => true)
            db.person ⟨[⟨i1, n1, LoadData.PyVal.time c, LoadData.PyVal.time (c + 1)⟩], false, []⟩
            ⟨i2, n2, LoadData.PyVal.time (c + 2), LoadData.PyVal.time (c + 3)⟩) (c + 4)).1
        = db.person ++ [⟨i1, n1, LoadData.PyVal.time c, LoadData.PyVal.time (c + 1)⟩,
            ⟨i2, n2, LoadData.PyVal.time (c + 2), LoadData.PyVal.time (c + 3)⟩]
    rw [s2]
    rfl

/-- C7 witness: concrete instances — null and empty-string `created`
default to successive clock ticks, a rating of 0.0 is kept, a null rating
becomes 0.0, and two defaulting rows in one batch get distinct stamps. -/
theorem c7_defaulting_witness :
    (LoadData.save_film_works
      [⟨"F7", .str "T", .null, .null, .null, .null, .str "movie", .str "x", .str "y"⟩]
      LoadData.emptyDB 3).1.film_work
      = [⟨"F7", .str "T", .null, .null, .null, .num 0, .str "movie", .str "x", .str "y"⟩]
  ∧ LoadData.pyOrNow LoadData.PyVal.null 5 = (.time 5, 6)
  ∧ LoadData.pyOrNow (LoadData.PyVal.str "a") 5 = (.str "a", 5)
  ∧ LoadData.pyOrNow (LoadData.PyVal.str "") 5 = (.time 5, 6)
  ∧ (LoadData.save_persons
      [⟨"pA", .str "Ann", .null, .null⟩, ⟨"pB", .str "Bob", .null, .null⟩]
      LoadData.emptyDB 10).1.person
      = [⟨"pA", .str "Ann", .time 10, .time 11⟩, ⟨"pB", .str "Bob", .time 12, .time 13⟩] := by
  refine ⟨?_, c7_defaulting.2.1 5, c7_defaulting.2.2.1 5 "a" (by decide),
    c7_defaulting.2.2.2.1 5, ?_⟩
  · have := c7_defaulting.1 LoadData.emptyDB 3
      ⟨"F7", .str "T", .null, .null, .null, .null, .str "movie", .str "x", .str "y"⟩
      (by decide)
    simpa using this
  · have := c7_defaulting.2.2.2.2 LoadData.emptyDB 10
      ⟨"pA", .str "Ann", .null, .null⟩ ⟨"pB", .str "Bob", .null, .null⟩
      rfl rfl rfl rfl (by decide) (by decide) (by decide)
    simpa using this

section BatchLemmas

/-- Concatenating the batches from offset `o` onward yields exactly the
rows from `o` onward. -/
theorem loadGo_join {α : Type} (rows : List α) (b : Nat) (hb : 0 < b) :
    ∀ offset, (loadGo rows b hb offset).flatten = rows.drop offset := by
  have H : ∀ n offset, rows.length - offset ≤ n →
      (loadGo rows b hb offset).flatten = rows.drop offset := by
    intro n
    induction n with
    | zero =>
      intro offset h
      have hlt : ¬ offset < rows.length := by omega
      rw [loadGo, if_neg hlt]
      rw [List.drop_eq_nil_of_le (by omega)]
      rfl
    | succ n ih =>
      intro offset h
      rw [loadGo]
      by_cases hlt : offset < rows.length
      · rw [if_pos hlt, List.flatten_cons, ih (offset + b) (by omega)]
        rw [show List.drop (offset + b) rows = List.drop b (List.drop offset rows)
          from by rw [List.drop_drop], List.take_append_drop]
      · rw [if_neg hlt, List.drop_eq_nil_of_le (by omega)]
        rfl
  intro offset
  exact H (rows.length - offset) offset le_rfl

/-- Batch `k` of the pagination starting at `offset` is the slice
beginning at `offset + k * b`, and exists exactly when that start lies
inside the table. -/
theorem loadGo_get {α : Type} (rows : List α) (b : Nat) (hb : 0 < b) :
    ∀ k offset, (loadGo rows b hb offset)[k]? =
      if offset + k * b < rows.length
      then some ((rows.drop (offset + k * b)).take b) else none := by
  intro k
  induction k with
  | zero =>
    intro offset
    rw [loadGo]
    by_cases h : offset < rows.length
    · rw [if_pos h]
      simp [h]
    · rw [if_neg h]
      simp [h]
  | succ k ih =>
    intro offset
    rw [loadGo]
    by_cases h : offset < rows.length
    · rw [if_pos h]
      have harith : offset + b + k * b = offset + (k + 1) * b := by ring
      simp only [List.getElem?_cons_succ, ih (offset + b), harith]
    · have h2 : ¬ (offset + (k + 1) * b < rows.length) := by
        have : offset ≤ offset + (k + 1) * b := Nat.le_add_right _ _
        omega
      rw [if_neg h, if_neg h2]
      rfl

end BatchLemmas

/-- C6: for every table content and positive batch size, the
concatenation of all batches yielded by the offset-based pagination is
exactly the table's rows — `countRows` of them, each exactly once, in
native order — and batch `k` is precisely the slice
`rows[k*batchSize, (k+1)*batchSize)`, the sequence ending once the
counted rows have been yielded. -/
theorem c6_batch_completeness {α : Type} (rows : List α) (batchSize : Nat)
    (hb : 0 < batchSize) :
    (load_data rows batchSize).flatten = rows
  ∧ ∀ k, (load_data rows batchSize)[k]? =
      if k * batchSize < rows.length
      then some ((rows.drop (k * batchSize)).take batchSize) else none := by
  constructor
  · rw [load_data, dif_pos hb, loadGo_join rows batchSize hb 0, List.drop_zero]
  · intro k
    rw [load_data, dif_pos hb, loadGo_get rows batchSize hb k 0]
    simp

/-- C6 witness: a five-row table with batch size 2 paginates into
[1,2], [3,4], [5] and joins back to the table. -/
theorem c6_batch_completeness_witness :
    (load_data [1, 2, 3, 4, 5] 2).flatten = [1, 2, 3, 4, 5]
  ∧ (load_data [1, 2, 3, 4, 5] 2)[1]?
      = if 1 * 2 < 5 then some (([1, 2, 3, 4, 5].drop (1 * 2)).take 2) else none :=
  ⟨(c6_batch_completeness [1, 2, 3, 4, 5] 2 (by decide)).1,
   (c6_batch_completeness [1, 2, 3, 4, 5] 2 (by decide)).2 1⟩

section SaveLoopLemmas

open LoadData

/-- If every row of the batch already has its key among the committed
rows, the whole per-row loop leaves the transaction in its initial state:
every insert takes the silent conflict-skip branch. -/
theorem saveLoop_all_present {ρ ι : Type} (key : ρ → String)
    (uk : ρ → Option (List PyVal)) (fkOk : ρ → Bool) (emit : Nat → ι → ρ × Nat)
    (committed : List ρ) (keyOf : ι → String)
    (hkey : ∀ c row, key (emit c row).1 = keyOf row) :
    ∀ (data : List ι) (c : Nat),
    (∀ row ∈ data, ∃ x ∈ committed, key x = keyOf row) →
    (saveLoop key uk fkOk emit committed data Txn.init c).1 = Txn.init := by
  intro data
  induction data with
  | nil => intro c _; rfl
  | cons row rest ih =>
    intro c h
    have hpres : ∃ x ∈ committed ++ (Txn.init : Txn ρ).pending,
        key x = key (emit c row).1 := by
      obtain ⟨x, hx, he⟩ := h row (List.mem_cons_self _ _)
      exact ⟨x, by simp [Txn.init, hx], by rw [hkey]; exact he⟩
    calc (saveLoop key uk fkOk emit committed (row :: rest) Txn.init c).1
        = (saveLoop key uk fkOk emit committed rest
            (execInsert key uk fkOk committed Txn.init (emit c row).1)
            (emit c row).2).1 := rfl
      _ = (saveLoop key uk fkOk emit committed rest Txn.init (emit c row).2).1 := by
            rw [execInsert_key_present rfl hpres]
      _ = Txn.init := ih _ (fun r hr => h r (List.mem_cons_of_mem _ hr))

/-- The per-row loop over a batch of rows drawn from a source `S` whose
foreign keys all resolve and whose non-arbiter unique keys never collide
(except between rows sharing an id): the transaction never aborts, logs
no warnings, only accumulates emitted rows, and ends with every batch
row's key visible. -/
theorem saveLoop_clean {ρ ι : Type} (key : ρ → String)
    (uk : ρ → Option (List PyVal)) (fkOk : ρ → Bool) (emit : Nat → ι → ρ × Nat)
    (committed : List ρ) (S : List ι)
    (keyOf : ι → String) (ukOf : ι → Option (List PyVal))
    (hkey : ∀ c row, key (emit c row).1 = keyOf row)
    (huk : ∀ c row, uk (emit c row).1 = ukOf row)
    (hfk : ∀ c row, row ∈ S → fkOk (emit c row).1 = true)
    (hcompat : ∀ x (row : ι), row ∈ S → ukOf row ≠ none → uk x = ukOf row →
      (x ∈ committed ∨ (∃ row' ∈ S, ∃ c0, x = (emit c0 row').1)) →
      key x = keyOf row) :
    ∀ (data : List ι) (st : Txn ρ) (c : Nat),
    (∀ r ∈ data, r ∈ S) →
    st.aborted = false →
    (∀ p ∈ st.pending, ∃ row' ∈ S, ∃ c0, p = (emit c0 row').1) →
    (saveLoop key uk fkOk emit committed data st c).1.aborted = false
    ∧ (saveLoop key uk fkOk emit committed data st c).1.warnings = st.warnings
    ∧ (∀ p ∈ (saveLoop key uk fkOk emit committed data st c).1.pending,
        ∃ row' ∈ S, ∃ c0, p = (emit c0 row').1)
    ∧ (∃ tail, (saveLoop key uk fkOk emit committed data st c).1.pending
        = st.pending ++ tail)
    ∧ (∀ row ∈ data, ∃ x ∈ committed
        ++ (saveLoop key uk fkOk emit committed data st c).1.pending,
        key x = keyOf row) := by
  intro data
  induction data with
  | nil =>
    intro st c _ hab hpend
    exact ⟨hab, rfl, hpend, ⟨[], by simp [LoadData.saveLoop]⟩, by simp⟩
  | cons row rest ih =>
    intro st c hdata hab hpend
    have hrowS : row ∈ S := hdata row (List.mem_cons_self _ _)
    have hrestS : ∀ r ∈ rest, r ∈ S := fun r hr => hdata r (List.mem_cons_of_mem _ hr)
    have hstep : saveLoop key uk fkOk emit committed (row :: rest) st c
        = saveLoop key uk fkOk emit committed rest
            (execInsert key uk fkOk committed st (emit c row).1) (emit c row).2 := rfl
    by_cases hk : ∃ x ∈ committed ++ st.pending, key x = key (emit c row).1
    · -- silent conflict skip
      rw [hstep, execInsert_key_present hab hk]
      obtain ⟨a1, a2, a3, ⟨tail, a4⟩, a5⟩ := ih st (emit c row).2 hrestS hab hpend
      refine ⟨a1, a2, a3, ⟨tail, a4⟩, ?_⟩
      intro r hr
      rcases List.mem_cons.mp hr with rfl | hr
      · obtain ⟨x, hx, he⟩ := hk
        refine ⟨x, ?_, by rw [he, hkey]⟩
        rcases List.mem_append.mp hx with hx | hx
        · exact List.mem_append_left _ hx
        · exact List.mem_append_right _ (a4 ▸ List.mem_append_left _ hx)
      · exact a5 r hr
    · -- fresh id: the row must insert, since its unique key cannot collide
      have hu : ¬ (uk (emit c row).1 ≠ none
          ∧ ∃ x ∈ committed ++ st.pending, uk x = uk (emit c row).1) := by
        rintro ⟨hne, x, hx, hux⟩
        have hukOf : ukOf row ≠ none := by rw [← huk c row]; exact hne
        have hx' : x ∈ committed ∨ (∃ row' ∈ S, ∃ c0, x = (emit c0 row').1) := by
          rcases List.mem_append.mp hx with hx | hx
          · exact Or.inl hx
          · exact Or.inr (hpend x hx)
        have hkeyx : key x = keyOf row :=
          hcompat x row hrowS hukOf (by rw [hux, huk]) hx'
        exact hk ⟨x, hx, by rw [hkeyx, hkey]⟩
      rw [hstep, execInsert_fresh hab hk hu (hfk c row hrowS)]
      have hpend' : ∀ p ∈ st.pending ++ [(emit c row).1],
          ∃ row' ∈ S, ∃ c0, p = (emit c0 row').1 := by
        intro p hp
        rcases List.mem_append.mp hp with hp | hp
        · exact hpend p hp
        · rw [List.mem_singleton] at hp
          exact ⟨row, hrowS, c, hp⟩
      obtain ⟨a1, a2, a3, ⟨tail, a4⟩, a5⟩ :=
        ih { st with pending := st.pending ++ [(emit c row).1] }
          (emit c row).2 hrestS hab hpend'
      refine ⟨a1, a2, a3, ⟨[(emit c row).1] ++ tail, by rw [a4, List.append_assoc]⟩, ?_⟩
      intro r hr
      rcases List.mem_cons.mp hr with rfl | hr
      · refine ⟨(emit c r).1, ?_, hkey c r⟩
        refine List.mem_append_right _ ?_
        rw [a4]
        exact List.mem_append_left _ (List.mem_append_right _ (List.mem_singleton.mpr rfl))
      · exact a5 r hr

end SaveLoopLemmas

section PerTableLemmas

open LoadData

/-- One `save_persons` batch: commits all fresh rows, logs nothing,
covers every batch id. -/
theorem save_persons_batch (db : DB) (c : Nat) (batch : List PersonRec) :
    ∃ ext, (save_persons batch db c).1 = { db with person := db.person ++ ext }
    ∧ (save_persons batch db c).2.2 = []
    ∧ (∀ x ∈ ext, ∃ row ∈ batch, ∃ c0, x = (personEmit c0 row).1)
    ∧ (∀ row ∈ batch, ∃ x ∈ db.person ++ ext, x.id = row.id) := by
  obtain ⟨a1, a2, a3, ⟨tail, a4⟩, a5⟩ := saveLoop_clean (fun x : PersonRec => x.id)
      (fun _ => none) (fun _ => true) personEmit db.person batch
      (fun row => row.id) (fun _ => none)
      (fun c row => rfl) (fun c row => rfl) (fun c row _ => rfl)
      (fun x row _ hne _ _ => absurd rfl hne)
      batch Txn.init c (fun r hr => hr) rfl (by simp [Txn.init])
  refine ⟨(saveLoop (fun x : PersonRec => x.id) (fun _ => none) (fun _ => true)
      personEmit db.person batch Txn.init c).1.pending, ?_, ?_, a3, a5⟩
  · show { db with person := commitTxn db.person _ } = _
    rw [commitTxn, if_neg (by rw [a1]; exact Bool.false_ne_true)]
  · show (saveLoop (fun x : PersonRec => x.id) (fun _ => none) (fun _ => true)
      personEmit db.person batch Txn.init c).1.warnings = []
    rw [a2]
    rfl

/-- One `save_film_works` batch: commits all fresh rows, logs nothing. -/
theorem save_film_works_batch (db : DB) (c : Nat) (batch : List FilmWorkRec) :
    ∃ ext, (save_film_works batch db c).1 = { db with film_work := db.film_work ++ ext }
    ∧ (save_film_works batch db c).2.2 = []
    ∧ (∀ x ∈ ext, ∃ row ∈ batch, ∃ c0, x = (filmWorkEmit c0 row).1)
    ∧ (∀ row ∈ batch, ∃ x ∈ db.film_work ++ ext, x.id = row.id) := by
  obtain ⟨a1, a2, a3, ⟨tail, a4⟩, a5⟩ := saveLoop_clean (fun x : FilmWorkRec => x.id)
      (fun _ => none) (fun _ => true) filmWorkEmit db.film_work batch
      (fun row => row.id) (fun _ => none)
      (fun c row => rfl) (fun c row => rfl) (fun c row _ => rfl)
      (fun x row _ hne _ _ => absurd rfl hne)
      batch Txn.init c (fun r hr => hr) rfl (by simp [Txn.init])
  refine ⟨(saveLoop (fun x : FilmWorkRec => x.id) (fun _ => none) (fun _ => true)
      filmWorkEmit db.film_work batch Txn.init c).1.pending, ?_, ?_, a3, a5⟩
  · show { db with film_work := commitTxn db.film_work _ } = _
    rw [commitTxn, if_neg (by rw [a1]; exact Bool.false_ne_true)]
  · show (saveLoop (fun x : FilmWorkRec => x.id) (fun _ => none) (fun _ => true)
      filmWorkEmit db.film_work batch Txn.init c).1.warnings = []
    rw [a2]
    rfl

/-- A `save_persons` batch of already-present ids is a silent no-op. -/
theorem save_persons_skip (db : DB) (c : Nat) (batch : List PersonRec)
    (h : ∀ row ∈ batch, ∃ x ∈ db.person, x.id = row.id) :
    (save_persons batch db c).1 = db ∧ (save_persons batch db c).2.2 = [] := by
  have hres := saveLoop_all_present (fun x : PersonRec => x.id) (fun _ => none)
      (fun _ => true) personEmit db.person (fun row => row.id)
      (fun c row => rfl) batch c h
  constructor
  · show { db with person := commitTxn db.person _ } = db
    rw [hres]
    show { db with person := db.person ++ [] } = db
    rw [List.append_nil]
  · show (saveLoop (fun x : PersonRec => x.id) (fun _ => none) (fun _ => true)
      personEmit db.person batch Txn.init c).1.warnings = []
    rw [hres]
    rfl

/-- A `save_film_works` batch of already-present ids is a silent no-op. -/
theorem save_film_works_skip (db : DB) (c : Nat) (batch : List FilmWorkRec)
    (h : ∀ row ∈ batch, ∃ x ∈ db.film_work, x.id = row.id) :
    (save_film_works batch db c).1 = db ∧ (save_film_works batch db c).2.2 = [] := by
  have hres := saveLoop_all_present (fun x : FilmWorkRec => x.id) (fun _ => none)
      (fun _ => true) filmWorkEmit db.film_work (fun row => row.id)
      (fun c row => rfl) batch c h
  constructor
  · show { db with film_work := commitTxn db.film_work _ } = db
    rw [hres]
    show { db with film_work := db.film_work ++ [] } = db
    rw [List.append_nil]
  · show (saveLoop (fun x : FilmWorkRec => x.id) (fun _ => none) (fun _ => true)
      filmWorkEmit db.film_work batch Txn.init c).1.warnings = []
    rw [hres]
    rfl

end PerTableLemmas

section PerTableLemmas2

open LoadData

/-- One `save_genres` batch drawn from a source `S` with no duplicated
non-null names across distinct ids, against a genre table whose rows all
come from `S`: commits all fresh rows, logs nothing. -/
theorem save_genres_batch (db : DB) (c : Nat) (batch : List GenreRec)
    (S : List GenreRec) (hsub : ∀ r ∈ batch, r ∈ S)
    (hdisc : ∀ g ∈ S, ∀ g' ∈ S, genreUk g' = genreUk g → genreUk g ≠ none → g'.id = g.id)
    (hcom : ∀ x ∈ db.genre, ∃ row ∈ S, ∃ c0, x = (genreEmit c0 row).1) :
    ∃ ext, (save_genres batch db c).1 = { db with genre := db.genre ++ ext }
    ∧ (save_genres batch db c).2.2 = []
    ∧ (∀ x ∈ ext, ∃ row ∈ S, ∃ c0, x = (genreEmit c0 row).1)
    ∧ (∀ row ∈ batch, ∃ x ∈ db.genre ++ ext, x.id = row.id) := by
  have hcompat : ∀ (x : GenreRec) (row : GenreRec), row ∈ S → genreUk row ≠ none →
      genreUk x = genreUk row →
      (x ∈ db.genre ∨ ∃ row' ∈ S, ∃ c0, x = (genreEmit c0 row').1) →
      x.id = row.id := by
    intro x row hrow hne hux hx
    have hx' : ∃ row' ∈ S, ∃ c0, x = (genreEmit c0 row').1 := by
      rcases hx with hx | hx
      · exact hcom x hx
      · exact hx
    obtain ⟨row', hrow', c0, rfl⟩ := hx'
    exact hdisc row hrow row' hrow' hux hne
  obtain ⟨a1, a2, a3, ⟨tail, a4⟩, a5⟩ := saveLoop_clean (fun x : GenreRec => x.id)
      genreUk (fun _ => true) genreEmit db.genre S
      (fun row => row.id) genreUk
      (fun c row => rfl) (fun c row => rfl) (fun c row _ => rfl)
      hcompat
      batch Txn.init c hsub rfl (by simp [Txn.init])
  refine ⟨(saveLoop (fun x : GenreRec => x.id) genreUk (fun _ => true)
      genreEmit db.genre batch Txn.init c).1.pending, ?_, ?_, a3, a5⟩
  · show { db with genre := commitTxn db.genre _ } = _
    rw [commitTxn, if_neg (by rw [a1]; exact Bool.false_ne_true)]
  · show (saveLoop (fun x : GenreRec => x.id) genreUk (fun _ => true)
      genreEmit db.genre batch Txn.init c).1.warnings = []
    rw [a2]
    rfl

/-- One `save_person_film_work` batch drawn from a source `S` whose
composite keys determine ids and whose foreign keys all resolve in the
committed parents: commits all fresh rows, logs nothing. -/
theorem save_pfw_batch (db : DB) (c : Nat) (batch : List PFWRec)
    (S : List PFWRec) (hsub : ∀ r ∈ batch, r ∈ S)
    (hdisc : ∀ r ∈ S, ∀ r' ∈ S, pfwUk r' = pfwUk r → r'.id = r.id)
    (hfks : ∀ r ∈ S, (∃ f ∈ db.film_work, f.id = r.film_work_id)
        ∧ (∃ p ∈ db.person, p.id = r.person_id))
    (hcom : ∀ x ∈ db.person_film_work, ∃ row ∈ S, ∃ c0, x = (pfwEmit c0 row).1) :
    ∃ ext, (save_person_film_work batch db c).1
        = { db with person_film_work := db.person_film_work ++ ext }
    ∧ (save_person_film_work batch db c).2.2 = []
    ∧ (∀ x ∈ ext, ∃ row ∈ S, ∃ c0, x = (pfwEmit c0 row).1)
    ∧ (∀ row ∈ batch, ∃ x ∈ db.person_film_work ++ ext, x.id = row.id) := by
  have hcompat : ∀ (x : PFWRec) (row : PFWRec), row ∈ S → pfwUk row ≠ none →
      pfwUk x = pfwUk row →
      (x ∈ db.person_film_work ∨ ∃ row' ∈ S, ∃ c0, x = (pfwEmit c0 row').1) →
      x.id = row.id := by
    intro x row hrow _ hux hx
    have hx' : ∃ row' ∈ S, ∃ c0, x = (pfwEmit c0 row').1 := by
      rcases hx with hx | hx
      · exact hcom x hx
      · exact hx
    obtain ⟨row', hrow', c0, rfl⟩ := hx'
    exact hdisc row hrow row' hrow' hux
  obtain ⟨a1, a2, a3, ⟨tail, a4⟩, a5⟩ := saveLoop_clean (fun x : PFWRec => x.id)
      pfwUk (fun r : PFWRec => decide ((∃ f ∈ db.film_work, f.id = r.film_work_id)
        ∧ (∃ p ∈ db.person, p.id = r.person_id)))
      pfwEmit db.person_film_work S
      (fun row => row.id) pfwUk
      (fun c row => rfl) (fun c row => rfl)
      (fun c row hrow => decide_eq_true (hfks row hrow))
      hcompat
      batch Txn.init c hsub rfl (by simp [Txn.init])
  refine ⟨(saveLoop (fun x : PFWRec => x.id) pfwUk
      (fun r : PFWRec => decide ((∃ f ∈ db.film_work, f.id = r.film_work_id)
        ∧ (∃ p ∈ db.person, p.id = r.person_id)))
      pfwEmit db.person_film_work batch Txn.init c).1.pending, ?_, ?_, a3, a5⟩
  · show { db with person_film_work := commitTxn db.person_film_work _ } = _
    rw [commitTxn, if_neg (by rw [a1]; exact Bool.false_ne_true)]
  · show (saveLoop (fun x : PFWRec => x.id) pfwUk
      (fun r : PFWRec => decide ((∃ f ∈ db.film_work, f.id = r.film_work_id)
        ∧ (∃ p ∈ db.person, p.id = r.person_id)))
      pfwEmit db.person_film_work batch Txn.init c).1.warnings = []
    rw [a2]
    rfl

/-- One `save_genre_film_work` batch, analogously. -/
theorem save_gfw_batch (db : DB) (c : Nat) (batch : List GFWRec)
    (S : List GFWRec) (hsub : ∀ r ∈ batch, r ∈ S)
    (hdisc : ∀ r ∈ S, ∀ r' ∈ S, gfwUk r' = gfwUk r → r'.id = r.id)
    (hfks : ∀ r ∈ S, (∃ f ∈ db.film_work, f.id = r.film_work_id)
        ∧ (∃ g ∈ db.genre, g.id = r.genre_id))
    (hcom : ∀ x ∈ db.genre_film_work, ∃ row ∈ S, ∃ c0, x = (gfwEmit c0 row).1) :
    ∃ ext, (save_genre_film_work batch db c).1
        = { db with genre_film_work := db.genre_film_work ++ ext }
    ∧ (save_genre_film_work batch db c).2.2 = []
    ∧ (∀ x ∈ ext, ∃ row ∈ S, ∃ c0, x = (gfwEmit c0 row).1)
    ∧ (∀ row ∈ batch, ∃ x ∈ db.genre_film_work ++ ext, x.id = row.id) := by
  have hcompat : ∀ (x : GFWRec) (row : GFWRec), row ∈ S → gfwUk row ≠ none →
      gfwUk x = gfwUk row →
      (x ∈ db.genre_film_work ∨ ∃ row' ∈ S, ∃ c0, x = (gfwEmit c0 row').1) →
      x.id = row.id := by
    intro x row hrow _ hux hx
    have hx' : ∃ row' ∈ S, ∃ c0, x = (gfwEmit c0 row').1 := by
      rcases hx with hx | hx
      · exact hcom x hx
      · exact hx
    obtain ⟨row', hrow', c0, rfl⟩ := hx'
    exact hdisc row hrow row' hrow' hux
  obtain ⟨a1, a2, a3, ⟨tail, a4⟩, a5⟩ := saveLoop_clean (fun x : GFWRec => x.id)
      gfwUk (fun r : GFWRec => decide ((∃ f ∈ db.film_work, f.id = r.film_work_id)
        ∧ (∃ g ∈ db.genre, g.id = r.genre_id)))
      gfwEmit db.genre_film_work S
      (fun row => row.id) gfwUk
      (fun c row => rfl) (fun c row => rfl)
      (fun c row hrow => decide_eq_true (hfks row hrow))
      hcompat
      batch Txn.init c hsub rfl (by simp [Txn.init])
  refine ⟨(saveLoop (fun x : GFWRec => x.id) gfwUk
      (fun r : GFWRec => decide ((∃ f ∈ db.film_work, f.id = r.film_work_id)
        ∧ (∃ g ∈ db.genre, g.id = r.genre_id)))
      gfwEmit db.genre_film_work batch Txn.init c).1.pending, ?_, ?_, a3, a5⟩
  · show { db with genre_film_work := commitTxn db.genre_film_work _ } = _
    rw [commitTxn, if_neg (by rw [a1]; exact Bool.false_ne_true)]
  · show (saveLoop (fun x : GFWRec => x.id) gfwUk
      (fun r : GFWRec => decide ((∃ f ∈ db.film_work, f.id = r.film_work_id)
        ∧ (∃ g ∈ db.genre, g.id = r.genre_id)))
      gfwEmit db.genre_film_work batch Txn.init c).1.warnings = []
    rw [a2]
    rfl

/-- A `save_genres` batch of already-present ids is a silent no-op. -/
theorem save_genres_skip (db : DB) (c : Nat) (batch : List GenreRec)
    (h : ∀ row ∈ batch, ∃ x ∈ db.genre, x.id = row.id) :
    (save_genres batch db c).1 = db ∧ (save_genres batch db c).2.2 = [] := by
  have hres := saveLoop_all_present (fun x : GenreRec => x.id) genreUk
      (fun _ => true) genreEmit db.genre (fun row => row.id)
      (fun c row => rfl) batch c h
  constructor
  · show { db with genre := commitTxn db.genre _ } = db
    rw [hres]
    show { db with genre := db.genre ++ [] } = db
    rw [List.append_nil]
  · show (saveLoop (fun x : GenreRec => x.id) genreUk (fun _ => true)
      genreEmit db.genre batch Txn.init c).1.warnings = []
    rw [hres]
    rfl

/-- A `save_person_film_work` batch of already-present ids is a silent
no-op. -/
theorem save_pfw_skip (db : DB) (c : Nat) (batch : List PFWRec)
    (h : ∀ row ∈ batch, ∃ x ∈ db.person_film_work, x.id = row.id) :
    (save_person_film_work batch db c).1 = db
    ∧ (save_person_film_work batch db c).2.2 = [] := by
  have hres := saveLoop_all_present (fun x : PFWRec => x.id) pfwUk
      (fun r : PFWRec => decide ((∃ f ∈ db.film_work, f.id = r.film_work_id)
        ∧ (∃ p ∈ db.person, p.id = r.person_id)))
      pfwEmit db.person_film_work (fun row => row.id)
      (fun c row => rfl) batch c h
  constructor
  · show { db with person_film_work := commitTxn db.person_film_work _ } = db
    rw [hres]
    show { db with person_film_work := db.person_film_work ++ [] } = db
    rw [List.append_nil]
  · show (saveLoop (fun x : PFWRec => x.id) pfwUk
      (fun r : PFWRec => decide ((∃ f ∈ db.film_work, f.id = r.film_work_id)
        ∧ (∃ p ∈ db.person, p.id = r.person_id)))
      pfwEmit db.person_film_work batch Txn.init c).1.warnings = []
    rw [hres]
    rfl

/-- A `save_genre_film_work` batch of already-present ids is a silent
no-op. -/
theorem save_gfw_skip (db : DB) (c : Nat) (batch : List GFWRec)
    (h : ∀ row ∈ batch, ∃ x ∈ db.genre_film_work, x.id = row.id) :
    (save_genre_film_work batch db c).1 = db
    ∧ (save_genre_film_work batch db c).2.2 = [] := by
  have hres := saveLoop_all_present (fun x : GFWRec => x.id) gfwUk
      (fun r : GFWRec => decide ((∃ f ∈ db.film_work, f.id = r.film_work_id)
        ∧ (∃ g ∈ db.genre, g.id = r.genre_id)))
      gfwEmit db.genre_film_work (fun row => row.id)
      (fun c row => rfl) batch c h
  constructor
  · show { db with genre_film_work := commitTxn db.genre_film_work _ } = db
    rw [hres]
    show { db with genre_film_work := db.genre_film_work ++ [] } = db
    rw [List.append_nil]
  · show (saveLoop (fun x : GFWRec => x.id) gfwUk
      (fun r : GFWRec => decide ((∃ f ∈ db.film_work, f.id = r.film_work_id)
        ∧ (∃ g ∈ db.genre, g.id = r.genre_id)))
      gfwEmit db.genre_film_work batch Txn.init c).1.warnings = []
    rw [hres]
    rfl

end PerTableLemmas2

section RunBatchLemmas

open LoadData

/-- Streaming any batch sequence of persons: the person table extends,
nothing else changes, no warnings are logged, every streamed id ends up
present. -/
theorem runBatchList_persons (batches : List (List PersonRec)) :
    ∀ s : RunState,
    ∃ ext, (runBatchList save_persons batches s).db
        = { s.db with person := s.db.person ++ ext }
    ∧ (runBatchList save_persons batches s).warnings = s.warnings
    ∧ (∀ x ∈ ext, ∃ row ∈ batches.flatten, ∃ c0, x = (personEmit c0 row).1)
    ∧ (∀ row ∈ batches.flatten, ∃ x ∈ s.db.person ++ ext, x.id = row.id) := by
  induction batches with
  | nil =>
    intro s
    refine ⟨[], ?_, rfl, by simp, by simp⟩
    show s.db = { s.db with person := s.db.person ++ [] }
    rw [List.append_nil]
  | cons batch rest ih =>
    intro s
    obtain ⟨e1, h1, h2, h3, h4⟩ := save_persons_batch s.db s.clock batch
    obtain ⟨e2, g1, g2, g3, g4⟩ := ih ⟨(save_persons batch s.db s.clock).1,
        (save_persons batch s.db s.clock).2.1,
        s.warnings ++ (save_persons batch s.db s.clock).2.2⟩
    have hmidp : (save_persons batch s.db s.clock).1.person = s.db.person ++ e1 := by
      rw [h1]
    refine ⟨e1 ++ e2, ?_, ?_, ?_, ?_⟩
    · show (runBatchList save_persons rest ⟨(save_persons batch s.db s.clock).1,
        (save_persons batch s.db s.clock).2.1,
        s.warnings ++ (save_persons batch s.db s.clock).2.2⟩).db = _
      rw [g1, h1]
      show { s.db with person := (s.db.person ++ e1) ++ e2 } = _
      rw [List.append_assoc]
    · show (runBatchList save_persons rest ⟨(save_persons batch s.db s.clock).1,
        (save_persons batch s.db s.clock).2.1,
        s.warnings ++ (save_persons batch s.db s.clock).2.2⟩).warnings = s.warnings
      rw [g2]
      show s.warnings ++ (save_persons batch s.db s.clock).2.2 = s.warnings
      rw [h2, List.append_nil]
    · intro x hx
      rcases List.mem_append.mp hx with hx | hx
      · obtain ⟨row, hrow, c0, hx⟩ := h3 x hx
        exact ⟨row, by rw [List.flatten_cons]; exact List.mem_append_left _ hrow, c0, hx⟩
      · obtain ⟨row, hrow, c0, hx⟩ := g3 x hx
        exact ⟨row, by rw [List.flatten_cons]; exact List.mem_append_right _ hrow, c0, hx⟩
    · intro row hrow
      rw [List.flatten_cons] at hrow
      rcases List.mem_append.mp hrow with hr | hr
      · obtain ⟨x, hx, he⟩ := h4 row hr
        refine ⟨x, ?_, he⟩
        rcases List.mem_append.mp hx with hx | hx
        · exact List.mem_append_left _ hx
        · exact List.mem_append_right _ (List.mem_append_left _ hx)
      · obtain ⟨x, hx, he⟩ := g4 row hr
        refine ⟨x, ?_, he⟩
        rw [hmidp] at hx
        rw [← List.append_assoc]
        exact hx

end RunBatchLemmas

section RunBatchLemmas2

open LoadData

/-- Streaming any batch sequence of film works, as for persons. -/
theorem runBatchList_film_works (batches : List (List FilmWorkRec)) :
    ∀ s : RunState,
    ∃ ext, (runBatchList save_film_works batches s).db
        = { s.db with film_work := s.db.film_work ++ ext }
    ∧ (runBatchList save_film_works batches s).warnings = s.warnings
    ∧ (∀ x ∈ ext, ∃ row ∈ batches.flatten, ∃ c0, x = (filmWorkEmit c0 row).1)
    ∧ (∀ row ∈ batches.flatten, ∃ x ∈ s.db.film_work ++ ext, x.id = row.id) := by
  induction batches with
  | nil =>
    intro s
    refine ⟨[], ?_, rfl, by simp, by simp⟩
    show s.db = { s.db with film_work := s.db.film_work ++ [] }
    rw [List.append_nil]
  | cons batch rest ih =>
    intro s
    obtain ⟨e1, h1, h2, h3, h4⟩ := save_film_works_batch s.db s.clock batch
    obtain ⟨e2, g1, g2, g3, g4⟩ := ih ⟨(save_film_works batch s.db s.clock).1,
        (save_film_works batch s.db s.clock).2.1,
        s.warnings ++ (save_film_works batch s.db s.clock).2.2⟩
    have hmidp : (save_film_works batch s.db s.clock).1.film_work
        = s.db.film_work ++ e1 := by
      rw [h1]
    refine ⟨e1 ++ e2, ?_, ?_, ?_, ?_⟩
    · show (runBatchList save_film_works rest ⟨(save_film_works batch s.db s.clock).1,
        (save_film_works batch s.db s.clock).2.1,
        s.warnings ++ (save_film_works batch s.db s.clock).2.2⟩).db = _
      rw [g1, h1]
      show { s.db with film_work := (s.db.film_work ++ e1) ++ e2 } = _
      rw [List.append_assoc]
    · show (runBatchList save_film_works rest ⟨(save_film_works batch s.db s.clock).1,
        (save_film_works batch s.db s.clock).2.1,
        s.warnings ++ (save_film_works batch s.db s.clock).2.2⟩).warnings = s.warnings
      rw [g2]
      show s.warnings ++ (save_film_works batch s.db s.clock).2.2 = s.warnings
      rw [h2, List.append_nil]
    · intro x hx
      rcases List.mem_append.mp hx with hx | hx
      · obtain ⟨row, hrow, c0, hx⟩ := h3 x hx
        exact ⟨row, by rw [List.flatten_cons]; exact List.mem_append_left _ hrow, c0, hx⟩
      · obtain ⟨row, hrow, c0, hx⟩ := g3 x hx
        exact ⟨row, by rw [List.flatten_cons]; exact List.mem_append_right _ hrow, c0, hx⟩
    · intro row hrow
      rw [List.flatten_cons] at hrow
      rcases List.mem_append.mp hrow with hr | hr
      · obtain ⟨x, hx, he⟩ := h4 row hr
        refine ⟨x, ?_, he⟩
        rcases List.mem_append.mp hx with hx | hx
        · exact List.mem_append_left _ hx
        · exact List.mem_append_right _ (List.mem_append_left _ hx)
      · obtain ⟨x, hx, he⟩ := g4 row hr
        refine ⟨x, ?_, he⟩
        rw [hmidp] at hx
        rw [← List.append_assoc]
        exact hx

/-- Streaming any batch sequence of genres drawn from a
name-disciplined source, starting from a genre table populated only from
that source. -/
theorem runBatchList_genres (S : List GenreRec)
    (hdisc : ∀ g ∈ S, ∀ g' ∈ S, genreUk g' = genreUk g → genreUk g ≠ none → g'.id = g.id)
    (batches : List (List GenreRec)) :
    ∀ s : RunState,
    (∀ r ∈ batches.flatten, r ∈ S) →
    (∀ x ∈ s.db.genre, ∃ row ∈ S, ∃ c0, x = (genreEmit c0 row).1) →
    ∃ ext, (runBatchList save_genres batches s).db
        = { s.db with genre := s.db.genre ++ ext }
    ∧ (runBatchList save_genres batches s).warnings = s.warnings
    ∧ (∀ x ∈ ext, ∃ row ∈ S, ∃ c0, x = (genreEmit c0 row).1)
    ∧ (∀ row ∈ batches.flatten, ∃ x ∈ s.db.genre ++ ext, x.id = row.id) := by
  induction batches with
  | nil =>
    intro s _ _
    refine ⟨[], ?_, rfl, by simp, by simp⟩
    show s.db = { s.db with genre := s.db.genre ++ [] }
    rw [List.append_nil]
  | cons batch rest ih =>
    intro s hsub hcom
    have hsubb : ∀ r ∈ batch, r ∈ S := fun r hr =>
      hsub r (by rw [List.flatten_cons]; exact List.mem_append_left _ hr)
    have hsubr : ∀ r ∈ rest.flatten, r ∈ S := fun r hr =>
      hsub r (by rw [List.flatten_cons]; exact List.mem_append_right _ hr)
    obtain ⟨e1, h1, h2, h3, h4⟩ := save_genres_batch s.db s.clock batch S hsubb hdisc hcom
    have hmidp : (save_genres batch s.db s.clock).1.genre = s.db.genre ++ e1 := by
      rw [h1]
    have hcom' : ∀ x ∈ (save_genres batch s.db s.clock).1.genre,
        ∃ row ∈ S, ∃ c0, x = (genreEmit c0 row).1 := by
      intro x hx
      rw [hmidp] at hx
      rcases List.mem_append.mp hx with hx | hx
      · exact hcom x hx
      · exact h3 x hx
    obtain ⟨e2, g1, g2, g3, g4⟩ := ih ⟨(save_genres batch s.db s.clock).1,
        (save_genres batch s.db s.clock).2.1,
        s.warnings ++ (save_genres batch s.db s.clock).2.2⟩ hsubr hcom'
    refine ⟨e1 ++ e2, ?_, ?_, ?_, ?_⟩
    · show (runBatchList save_genres rest ⟨(save_genres batch s.db s.clock).1,
        (save_genres batch s.db s.clock).2.1,
        s.warnings ++ (save_genres batch s.db s.clock).2.2⟩).db = _
      rw [g1, h1]
      show { s.db with genre := (s.db.genre ++ e1) ++ e2 } = _
      rw [List.append_assoc]
    · show (runBatchList save_genres rest ⟨(save_genres batch s.db s.clock).1,
        (save_genres batch s.db s.clock).2.1,
        s.warnings ++ (save_genres batch s.db s.clock).2.2⟩).warnings = s.warnings
      rw [g2]
      show s.warnings ++ (save_genres batch s.db s.clock).2.2 = s.warnings
      rw [h2, List.append_nil]
    · intro x hx
      rcases List.mem_append.mp hx with hx | hx
      · exact h3 x hx
      · exact g3 x hx
    · intro row hrow
      rw [List.flatten_cons] at hrow
      rcases List.mem_append.mp hrow with hr | hr
      · obtain ⟨x, hx, he⟩ := h4 row hr
        refine ⟨x, ?_, he⟩
        rcases List.mem_append.mp hx with hx | hx
        · exact List.mem_append_left _ hx
        · exact List.mem_append_right _ (List.mem_append_left _ hx)
      · obtain ⟨x, hx, he⟩ := g4 row hr
        refine ⟨x, ?_, he⟩
        rw [hmidp] at hx
        rw [← List.append_assoc]
        exact hx

end RunBatchLemmas2

section RunBatchLemmas3

open LoadData

/-- Streaming any batch sequence of person_film_work rows from a
key-disciplined source whose foreign keys resolve in the committed
parents, starting from a table populated only from that source. -/
theorem runBatchList_pfw (S : List PFWRec)
    (hdisc : ∀ r ∈ S, ∀ r' ∈ S, pfwUk r' = pfwUk r → r'.id = r.id)
    (batches : List (List PFWRec)) :
    ∀ s : RunState,
    (∀ r ∈ batches.flatten, r ∈ S) →
    (∀ r ∈ S, (∃ f ∈ s.db.film_work, f.id = r.film_work_id)
        ∧ (∃ p ∈ s.db.person, p.id = r.person_id)) →
    (∀ x ∈ s.db.person_film_work, ∃ row ∈ S, ∃ c0, x = (pfwEmit c0 row).1) →
    ∃ ext, (runBatchList save_person_film_work batches s).db
        = { s.db with person_film_work := s.db.person_film_work ++ ext }
    ∧ (runBatchList save_person_film_work batches s).warnings = s.warnings
    ∧ (∀ x ∈ ext, ∃ row ∈ S, ∃ c0, x = (pfwEmit c0 row).1)
    ∧ (∀ row ∈ batches.flatten, ∃ x ∈ s.db.person_film_work ++ ext, x.id = row.id) := by
  induction batches with
  | nil =>
    intro s _ _ _
    refine ⟨[], ?_, rfl, by simp, by simp⟩
    show s.db = { s.db with person_film_work := s.db.person_film_work ++ [] }
    rw [List.append_nil]
  | cons batch rest ih =>
    intro s hsub hfks hcom
    have hsubb : ∀ r ∈ batch, r ∈ S := fun r hr =>
      hsub r (by rw [List.flatten_cons]; exact List.mem_append_left _ hr)
    have hsubr : ∀ r ∈ rest.flatten, r ∈ S := fun r hr =>
      hsub r (by rw [List.flatten_cons]; exact List.mem_append_right _ hr)
    obtain ⟨e1, h1, h2, h3, h4⟩ :=
      save_pfw_batch s.db s.clock batch S hsubb hdisc hfks hcom
    have hmidp : (save_person_film_work batch s.db s.clock).1.person_film_work
        = s.db.person_film_work ++ e1 := by
      rw [h1]
    have hcom' : ∀ x ∈ (save_person_film_work batch s.db s.clock).1.person_film_work,
        ∃ row ∈ S, ∃ c0, x = (pfwEmit c0 row).1 := by
      intro x hx
      rw [hmidp] at hx
      rcases List.mem_append.mp hx with hx | hx
      · exact hcom x hx
      · exact h3 x hx
    have hfks' : ∀ r ∈ S,
        (∃ f ∈ (save_person_film_work batch s.db s.clock).1.film_work,
          f.id = r.film_work_id)
        ∧ (∃ p ∈ (save_person_film_work batch s.db s.clock).1.person,
          p.id = r.person_id) := by
      have hfw : (save_person_film_work batch s.db s.clock).1.film_work
          = s.db.film_work := by rw [h1]
      have hp : (save_person_film_work batch s.db s.clock).1.person
          = s.db.person := by rw [h1]
      intro r hr
      rw [hfw, hp]
      exact hfks r hr
    obtain ⟨e2, g1, g2, g3, g4⟩ := ih ⟨(save_person_film_work batch s.db s.clock).1,
        (save_person_film_work batch s.db s.clock).2.1,
        s.warnings ++ (save_person_film_work batch s.db s.clock).2.2⟩ hsubr hfks' hcom'
    refine ⟨e1 ++ e2, ?_, ?_, ?_, ?_⟩
    · show (runBatchList save_person_film_work rest
        ⟨(save_person_film_work batch s.db s.clock).1,
        (save_person_film_work batch s.db s.clock).2.1,
        s.warnings ++ (save_person_film_work batch s.db s.clock).2.2⟩).db = _
      rw [g1, h1]
      show { s.db with person_film_work := (s.db.person_film_work ++ e1) ++ e2 } = _
      rw [List.append_assoc]
    · show (runBatchList save_person_film_work rest
        ⟨(save_person_film_work batch s.db s.clock).1,
        (save_person_film_work batch s.db s.clock).2.1,
        s.warnings ++ (save_person_film_work batch s.db s.clock).2.2⟩).warnings
        = s.warnings
      rw [g2]
      show s.warnings ++ (save_person_film_work batch s.db s.clock).2.2 = s.warnings
      rw [h2, List.append_nil]
    · intro x hx
      rcases List.mem_append.mp hx with hx | hx
      · exact h3 x hx
      · exact g3 x hx
    · intro row hrow
      rw [List.flatten_cons] at hrow
      rcases List.mem_append.mp hrow with hr | hr
      · obtain ⟨x, hx, he⟩ := h4 row hr
        refine ⟨x, ?_, he⟩
        rcases List.mem_append.mp hx with hx | hx
        · exact List.mem_append_left _ hx
        · exact List.mem_append_right _ (List.mem_append_left _ hx)
      · obtain ⟨x, hx, he⟩ := g4 row hr
        refine ⟨x, ?_, he⟩
        rw [hmidp] at hx
        rw [← List.append_assoc]
        exact hx

/-- Streaming any batch sequence of genre_film_work rows, analogously. -/
theorem runBatchList_gfw (S : List GFWRec)
    (hdisc : ∀ r ∈ S, ∀ r' ∈ S, gfwUk r' = gfwUk r → r'.id = r.id)
    (batches : List (List GFWRec)) :
    ∀ s : RunState,
    (∀ r ∈ batches.flatten, r ∈ S) →
    (∀ r ∈ S, (∃ f ∈ s.db.film_work, f.id = r.film_work_id)
        ∧ (∃ g ∈ s.db.genre, g.id = r.genre_id)) →
    (∀ x ∈ s.db.genre_film_work, ∃ row ∈ S, ∃ c0, x = (gfwEmit c0 row).1) →
    ∃ ext, (runBatchList save_genre_film_work batches s).db
        = { s.db with genre_film_work := s.db.genre_film_work ++ ext }
    ∧ (runBatchList save_genre_film_work batches s).warnings = s.warnings
    ∧ (∀ x ∈ ext, ∃ row ∈ S, ∃ c0, x = (gfwEmit c0 row).1)
    ∧ (∀ row ∈ batches.flatten, ∃ x ∈ s.db.genre_film_work ++ ext, x.id = row.id) := by
  induction batches with
  | nil =>
    intro s _ _ _
    refine ⟨[], ?_, rfl, by simp, by simp⟩
    show s.db = { s.db with genre_film_work := s.db.genre_film_work ++ [] }
    rw [List.append_nil]
  | cons batch rest ih =>
    intro s hsub hfks hcom
    have hsubb : ∀ r ∈ batch, r ∈ S := fun r hr =>
      hsub r (by rw [List.flatten_cons]; exact List.mem_append_left _ hr)
    have hsubr : ∀ r ∈ rest.flatten, r ∈ S := fun r hr =>
      hsub r (by rw [List.flatten_cons]; exact List.mem_append_right _ hr)
    obtain ⟨e1, h1, h2, h3, h4⟩ :=
      save_gfw_batch s.db s.clock batch S hsubb hdisc hfks hcom
    have hmidp : (save_genre_film_work batch s.db s.clock).1.genre_film_work
        = s.db.genre_film_work ++ e1 := by
      rw [h1]
    have hcom' : ∀ x ∈ (save_genre_film_work batch s.db s.clock).1.genre_film_work,
        ∃ row ∈ S, ∃ c0, x = (gfwEmit c0 row).1 := by
      intro x hx
      rw [hmidp] at hx
      rcases List.mem_append.mp hx with hx | hx
      · exact hcom x hx
      · exact h3 x hx
    have hfks' : ∀ r ∈ S,
        (∃ f ∈ (save_genre_film_work batch s.db s.clock).1.film_work,
          f.id = r.film_work_id)
        ∧ (∃ g ∈ (save_genre_film_work batch s.db s.clock).1.genre,
          g.id = r.genre_id) := by
      have hfw : (save_genre_film_work batch s.db s.clock).1.film_work
          = s.db.film_work := by rw [h1]
      have hg : (save_genre_film_work batch s.db s.clock).1.genre
          = s.db.genre := by rw [h1]
      intro r hr
      rw [hfw, hg]
      exact hfks r hr
    obtain ⟨e2, g1, g2, g3, g4⟩ := ih ⟨(save_genre_film_work batch s.db s.clock).1,
        (save_genre_film_work batch s.db s.clock).2.1,
        s.warnings ++ (save_genre_film_work batch s.db s.clock).2.2⟩ hsubr hfks' hcom'
    refine ⟨e1 ++ e2, ?_, ?_, ?_, ?_⟩
    · show (runBatchList save_genre_film_work rest
        ⟨(save_genre_film_work batch s.db s.clock).1,
        (save_genre_film_work batch s.db s.clock).2.1,
        s.warnings ++ (save_genre_film_work batch s.db s.clock).2.2⟩).db = _
      rw [g1, h1]
      show { s.db with genre_film_work := (s.db.genre_film_work ++ e1) ++ e2 } = _
      rw [List.append_assoc]
    · show (runBatchList save_genre_film_work rest
        ⟨(save_genre_film_work batch s.db s.clock).1,
        (save_genre_film_work batch s.db s.clock).2.1,
        s.warnings ++ (save_genre_film_work batch s.db s.clock).2.2⟩).warnings
        = s.warnings
      rw [g2]
      show s.warnings ++ (save_genre_film_work batch s.db s.clock).2.2 = s.warnings
      rw [h2, List.append_nil]
    · intro x hx
      rcases List.mem_append.mp hx with hx | hx
      · exact h3 x hx
      · exact g3 x hx
    · intro row hrow
      rw [List.flatten_cons] at hrow
      rcases List.mem_append.mp hrow with hr | hr
      · obtain ⟨x, hx, he⟩ := h4 row hr
        refine ⟨x, ?_, he⟩
        rcases List.mem_append.mp hx with hx | hx
        · exact List.mem_append_left _ hx
        · exact List.mem_append_right _ (List.mem_append_left _ hx)
      · obtain ⟨x, hx, he⟩ := g4 row hr
        refine ⟨x, ?_, he⟩
        rw [hmidp] at hx
        rw [← List.append_assoc]
        exact hx

end RunBatchLemmas3

section RunBatchSkipLemmas

open LoadData

/-- A batch stream whose ids are all present already leaves the target
unchanged, with no warnings (person). -/
theorem runBatchList_persons_skip (batches : List (List PersonRec)) :
    ∀ s : RunState,
    (∀ row ∈ batches.flatten, ∃ x ∈ s.db.person, x.id = row.id) →
    (runBatchList save_persons batches s).db = s.db
    ∧ (runBatchList save_persons batches s).warnings = s.warnings := by
  induction batches with
  | nil => intro s _; exact ⟨rfl, rfl⟩
  | cons batch rest ih =>
    intro s h
    have hb : ∀ row ∈ batch, ∃ x ∈ s.db.person, x.id = row.id := fun row hr =>
      h row (by rw [List.flatten_cons]; exact List.mem_append_left _ hr)
    obtain ⟨k1, k2⟩ := save_persons_skip s.db s.clock batch hb
    have hrest : ∀ row ∈ rest.flatten,
        ∃ x ∈ (save_persons batch s.db s.clock).1.person, x.id = row.id := by
      intro row hr
      rw [k1]
      exact h row (by rw [List.flatten_cons]; exact List.mem_append_right _ hr)
    obtain ⟨g1, g2⟩ := ih ⟨(save_persons batch s.db s.clock).1,
        (save_persons batch s.db s.clock).2.1,
        s.warnings ++ (save_persons batch s.db s.clock).2.2⟩ hrest
    constructor
    · show (runBatchList save_persons rest ⟨(save_persons batch s.db s.clock).1,
        (save_persons batch s.db s.clock).2.1,
        s.warnings ++ (save_persons batch s.db s.clock).2.2⟩).db = s.db
      rw [g1, k1]
    · show (runBatchList save_persons rest ⟨(save_persons batch s.db s.clock).1,
        (save_persons batch s.db s.clock).2.1,
        s.warnings ++ (save_persons batch s.db s.clock).2.2⟩).warnings = s.warnings
      rw [g2]
      show s.warnings ++ (save_persons batch s.db s.clock).2.2 = s.warnings
      rw [k2, List.append_nil]

/-- A batch stream whose ids are all present already leaves the target
unchanged, with no warnings (genre). -/
theorem runBatchList_genres_skip (batches : List (List GenreRec)) :
    ∀ s : RunState,
    (∀ row ∈ batches.flatten, ∃ x ∈ s.db.genre, x.id = row.id) →
    (runBatchList save_genres batches s).db = s.db
    ∧ (runBatchList save_genres batches s).warnings = s.warnings := by
  induction batches with
  | nil => intro s _; exact ⟨rfl, rfl⟩
  | cons batch rest ih =>
    intro s h
    have hb : ∀ row ∈ batch, ∃ x ∈ s.db.genre, x.id = row.id := fun row hr =>
      h row (by rw [List.flatten_cons]; exact List.mem_append_left _ hr)
    obtain ⟨k1, k2⟩ := save_genres_skip s.db s.clock batch hb
    have hrest : ∀ row ∈ rest.flatten,
        ∃ x ∈ (save_genres batch s.db s.clock).1.genre, x.id = row.id := by
      intro row hr
      rw [k1]
      exact h row (by rw [List.flatten_cons]; exact List.mem_append_right _ hr)
    obtain ⟨g1, g2⟩ := ih ⟨(save_genres batch s.db s.clock).1,
        (save_genres batch s.db s.clock).2.1,
        s.warnings ++ (save_genres batch s.db s.clock).2.2⟩ hrest
    constructor
    · show (runBatchList save_genres rest ⟨(save_genres batch s.db s.clock).1,
        (save_genres batch s.db s.clock).2.1,
        s.warnings ++ (save_genres batch s.db s.clock).2.2⟩).db = s.db
      rw [g1, k1]
    · show (runBatchList save_genres rest ⟨(save_genres batch s.db s.clock).1,
        (save_genres batch s.db s.clock).2.1,
        s.warnings ++ (save_genres batch s.db s.clock).2.2⟩).warnings = s.warnings
      rw [g2]
      show s.warnings ++ (save_genres batch s.db s.clock).2.2 = s.warnings
      rw [k2, List.append_nil]

/-- A batch stream whose ids are all present already leaves the target
unchanged, with no warnings (film_work). -/
theorem runBatchList_film_works_skip (batches : List (List FilmWorkRec)) :
    ∀ s : RunState,
    (∀ row ∈ batches.flatten, ∃ x ∈ s.db.film_work, x.id = row.id) →
    (runBatchList save_film_works batches s).db = s.db
    ∧ (runBatchList save_film_works batches s).warnings = s.warnings := by
  induction batches with
  | nil => intro s _; exact ⟨rfl, rfl⟩
  | cons batch rest ih =>
    intro s h
    have hb : ∀ row ∈ batch, ∃ x ∈ s.db.film_work, x.id = row.id := fun row hr =>
      h row (by rw [List.flatten_cons]; exact List.mem_append_left _ hr)
    obtain ⟨k1, k2⟩ := save_film_works_skip s.db s.clock batch hb
    have hrest : ∀ row ∈ rest.flatten,
        ∃ x ∈ (save_film_works batch s.db s.clock).1.film_work, x.id = row.id := by
      intro row hr
      rw [k1]
      exact h row (by rw [List.flatten_cons]; exact List.mem_append_right _ hr)
    obtain ⟨g1, g2⟩ := ih ⟨(save_film_works batch s.db s.clock).1,
        (save_film_works batch s.db s.clock).2.1,
        s.warnings ++ (save_film_works batch s.db s.clock).2.2⟩ hrest
    constructor
    · show (runBatchList save_film_works rest ⟨(save_film_works batch s.db s.clock).1,
        (save_film_works batch s.db s.clock).2.1,
        s.warnings ++ (save_film_works batch s.db s.clock).2.2⟩).db = s.db
      rw [g1, k1]
    · show (runBatchList save_film_works rest ⟨(save_film_works batch s.db s.clock).1,
        (save_film_works batch s.db s.clock).2.1,
        s.warnings ++ (save_film_works batch s.db s.clock).2.2⟩).warnings = s.warnings
      rw [g2]
      show s.warnings ++ (save_film_works batch s.db s.clock).2.2 = s.warnings
      rw [k2, List.append_nil]

/-- A batch stream whose ids are all present already leaves the target
unchanged, with no warnings (person_film_work). -/
theorem runBatchList_pfw_skip (batches : List (List PFWRec)) :
    ∀ s : RunState,
    (∀ row ∈ batches.flatten, ∃ x ∈ s.db.person_film_work, x.id = row.id) →
    (runBatchList save_person_film_work batches s).db = s.db
    ∧ (runBatchList save_person_film_work batches s).warnings = s.warnings := by
  induction batches with
  | nil => intro s _; exact ⟨rfl, rfl⟩
  | cons batch rest ih =>
    intro s h
    have hb : ∀ row ∈ batch, ∃ x ∈ s.db.person_film_work, x.id = row.id := fun row hr =>
      h row (by rw [List.flatten_cons]; exact List.mem_append_left _ hr)
    obtain ⟨k1, k2⟩ := save_pfw_skip s.db s.clock batch hb
    have hrest : ∀ row ∈ rest.flatten,
        ∃ x ∈ (save_person_film_work batch s.db s.clock).1.person_film_work, x.id = row.id := by
      intro row hr
      rw [k1]
      exact h row (by rw [List.flatten_cons]; exact List.mem_append_right _ hr)
    obtain ⟨g1, g2⟩ := ih ⟨(save_person_film_work batch s.db s.clock).1,
        (save_person_film_work batch s.db s.clock).2.1,
        s.warnings ++ (save_person_film_work batch s.db s.clock).2.2⟩ hrest
    constructor
    · show (runBatchList save_person_film_work rest ⟨(save_person_film_work batch s.db s.clock).1,
        (save_person_film_work batch s.db s.clock).2.1,
        s.warnings ++ (save_person_film_work batch s.db s.clock).2.2⟩).db = s.db
      rw [g1, k1]
    · show (runBatchList save_person_film_work rest ⟨(save_person_film_work batch s.db s.clock).1,
        (save_person_film_work batch s.db s.clock).2.1,
        s.warnings ++ (save_person_film_work batch s.db s.clock).2.2⟩).warnings = s.warnings
      rw [g2]
      show s.warnings ++ (save_person_film_work batch s.db s.clock).2.2 = s.warnings
      rw [k2, List.append_nil]

/-- A batch stream whose ids are all present already leaves the target
unchanged, with no warnings (genre_film_work). -/
theorem runBatchList_gfw_skip (batches : List (List GFWRec)) :
    ∀ s : RunState,
    (∀ row ∈ batches.flatten, ∃ x ∈ s.db.genre_film_work, x.id = row.id) →
    (runBatchList save_genre_film_work batches s).db = s.db
    ∧ (runBatchList save_genre_film_work batches s).warnings = s.warnings := by
  induction batches with
  | nil => intro s _; exact ⟨rfl, rfl⟩
  | cons batch rest ih =>
    intro s h
    have hb : ∀ row ∈ batch, ∃ x ∈ s.db.genre_film_work, x.id = row.id := fun row hr =>
      h row (by rw [List.flatten_cons]; exact List.mem_append_left _ hr)
    obtain ⟨k1, k2⟩ := save_gfw_skip s.db s.clock batch hb
    have hrest : ∀ row ∈ rest.flatten,
        ∃ x ∈ (save_genre_film_work batch s.db s.clock).1.genre_film_work, x.id = row.id := by
      intro row hr
      rw [k1]
      exact h row (by rw [List.flatten_cons]; exact List.mem_append_right _ hr)
    obtain ⟨g1, g2⟩ := ih ⟨(save_genre_film_work batch s.db s.clock).1,
        (save_genre_film_work batch s.db s.clock).2.1,
        s.warnings ++ (save_genre_film_work batch s.db s.clock).2.2⟩ hrest
    constructor
    · show (runBatchList save_genre_film_work rest ⟨(save_genre_film_work batch s.db s.clock).1,
        (save_genre_film_work batch s.db s.clock).2.1,
        s.warnings ++ (save_genre_film_work batch s.db s.clock).2.2⟩).db = s.db
      rw [g1, k1]
    · show (runBatchList save_genre_film_work rest ⟨(save_genre_film_work batch s.db s.clock).1,
        (save_genre_film_work batch s.db s.clock).2.1,
        s.warnings ++ (save_genre_film_work batch s.db s.clock).2.2⟩).warnings = s.warnings
      rw [g2]
      show s.warnings ++ (save_genre_film_work batch s.db s.clock).2.2 = s.warnings
      rw [k2, List.append_nil]

end RunBatchSkipLemmas

section MigrationLemmas

open LoadData

/-- The concatenation of the batches the loader yields at the
orchestrator's batch size is the table itself. -/
theorem load_data_flatten {α : Type} (rows : List α) :
    (load_data rows 1000).flatten = rows := by
  have hb : (0:Nat) < 1000 := by norm_num
  rw [load_data, dif_pos hb, loadGo_join rows 1000 hb 0, List.drop_zero]

/-- A migration run against a target that already contains every source
id changes nothing and logs nothing: all five tables take the silent
conflict-skip path. -/
theorem load_from_sqlite_noop (src : Source) (db : DB) (c : Nat)
    (h1 : ∀ row ∈ src.person, ∃ x ∈ db.person, x.id = row.id)
    (h2 : ∀ row ∈ src.genre, ∃ x ∈ db.genre, x.id = row.id)
    (h3 : ∀ row ∈ src.film_work, ∃ x ∈ db.film_work, x.id = row.id)
    (h4 : ∀ row ∈ src.person_film_work, ∃ x ∈ db.person_film_work, x.id = row.id)
    (h5 : ∀ row ∈ src.genre_film_work, ∃ x ∈ db.genre_film_work, x.id = row.id) :
    (load_from_sqlite src db c).db = db
    ∧ (load_from_sqlite src db c).warnings = [] := by
  obtain ⟨u1, u1w⟩ := runBatchList_persons_skip (load_data src.person 1000)
      ⟨db, c, []⟩ (by rw [load_data_flatten]; exact h1)
  obtain ⟨u2, u2w⟩ := runBatchList_genres_skip (load_data src.genre 1000)
      (runBatchList save_persons (load_data src.person 1000) ⟨db, c, []⟩)
      (by rw [load_data_flatten, u1]; exact h2)
  obtain ⟨u3, u3w⟩ := runBatchList_film_works_skip (load_data src.film_work 1000)
      (runBatchList save_genres (load_data src.genre 1000)
        (runBatchList save_persons (load_data src.person 1000) ⟨db, c, []⟩))
      (by rw [load_data_flatten, u2, u1]; exact h3)
  obtain ⟨u4, u4w⟩ := runBatchList_pfw_skip (load_data src.person_film_work 1000)
      (runBatchList save_film_works (load_data src.film_work 1000)
        (runBatchList save_genres (load_data src.genre 1000)
          (runBatchList save_persons (load_data src.person 1000) ⟨db, c, []⟩)))
      (by rw [load_data_flatten, u3, u2, u1]; exact h4)
  obtain ⟨u5, u5w⟩ := runBatchList_gfw_skip (load_data src.genre_film_work 1000)
      (runBatchList save_person_film_work (load_data src.person_film_work 1000)
        (runBatchList save_film_works (load_data src.film_work 1000)
          (runBatchList save_genres (load_data src.genre 1000)
            (runBatchList save_persons (load_data src.person 1000) ⟨db, c, []⟩))))
      (by rw [load_data_flatten, u4, u3, u2, u1]; exact h5)
  constructor
  · show (runBatchList save_genre_film_work (load_data src.genre_film_work 1000)
      (runBatchList save_person_film_work (load_data src.person_film_work 1000)
        (runBatchList save_film_works (load_data src.film_work 1000)
          (runBatchList save_genres (load_data src.genre 1000)
            (runBatchList save_persons (load_data src.person 1000) ⟨db, c, []⟩))))).db
      = db
    rw [u5, u4, u3, u2, u1]
  · show (runBatchList save_genre_film_work (load_data src.genre_film_work 1000)
      (runBatchList save_person_film_work (load_data src.person_film_work 1000)
        (runBatchList save_film_works (load_data src.film_work 1000)
          (runBatchList save_genres (load_data src.genre 1000)
            (runBatchList save_persons (load_data src.person 1000) ⟨db, c, []⟩))))).warnings
      = []
    rw [u5w, u4w, u3w, u2w, u1w]

end MigrationLemmas

section MigrationLemmas2

open LoadData

/-- A first migration run from an empty target over an internally
consistent source commits a row for every source id in every table and
logs no warnings. -/
theorem load_from_sqlite_covers (src : Source) (c : Nat)
    (hgenre_uk : ∀ g ∈ src.genre, ∀ g' ∈ src.genre,
      genreUk g' = genreUk g → genreUk g ≠ none → g'.id = g.id)
    (hpfw_uk : ∀ r ∈ src.person_film_work, ∀ r' ∈ src.person_film_work,
      pfwUk r' = pfwUk r → r'.id = r.id)
    (hgfw_uk : ∀ r ∈ src.genre_film_work, ∀ r' ∈ src.genre_film_work,
      gfwUk r' = gfwUk r → r'.id = r.id)
    (hpfw_fk : ∀ r ∈ src.person_film_work,
      (∃ f ∈ src.film_work, f.id = r.film_work_id)
      ∧ (∃ p ∈ src.person, p.id = r.person_id))
    (hgfw_fk : ∀ r ∈ src.genre_film_work,
      (∃ f ∈ src.film_work, f.id = r.film_work_id)
      ∧ (∃ g ∈ src.genre, g.id = r.genre_id)) :
    (∀ row ∈ src.person,
      ∃ x ∈ (load_from_sqlite src emptyDB c).db.person, x.id = row.id)
    ∧ (∀ row ∈ src.genre,
      ∃ x ∈ (load_from_sqlite src emptyDB c).db.genre, x.id = row.id)
    ∧ (∀ row ∈ src.film_work,
      ∃ x ∈ (load_from_sqlite src emptyDB c).db.film_work, x.id = row.id)
    ∧ (∀ row ∈ src.person_film_work,
      ∃ x ∈ (load_from_sqlite src emptyDB c).db.person_film_work, x.id = row.id)
    ∧ (∀ row ∈ src.genre_film_work,
      ∃ x ∈ (load_from_sqlite src emptyDB c).db.genre_film_work, x.id = row.id)
    ∧ (load_from_sqlite src emptyDB c).warnings = [] := by
  obtain ⟨e1, p1, p2, _, p4⟩ :=
    runBatchList_persons (load_data src.person 1000) (⟨emptyDB, c, []⟩ : RunState)
  rw [load_data_flatten] at p4
  have hsubg : ∀ r ∈ (load_data src.genre 1000).flatten, r ∈ src.genre := by
    rw [load_data_flatten]; exact fun r hr => hr
  have hcomg : ∀ x ∈ (runBatchList save_persons (load_data src.person 1000) (⟨emptyDB, c, []⟩ : RunState)).db.genre,
      ∃ row ∈ src.genre, ∃ c0, x = (genreEmit c0 row).1 := by
    intro x hx
    rw [p1] at hx
    exact absurd hx (List.not_mem_nil x)
  obtain ⟨e2, q1, q2, q3, q4⟩ :=
    runBatchList_genres src.genre hgenre_uk (load_data src.genre 1000) (runBatchList save_persons (load_data src.person 1000) (⟨emptyDB, c, []⟩ : RunState)) hsubg hcomg
  rw [load_data_flatten] at q4
  obtain ⟨e3, r1, r2, _, r4⟩ :=
    runBatchList_film_works (load_data src.film_work 1000) (runBatchList save_genres (load_data src.genre 1000) (runBatchList save_persons (load_data src.person 1000) (⟨emptyDB, c, []⟩ : RunState)))
  rw [load_data_flatten] at r4
  have hS3fw : (runBatchList save_film_works (load_data src.film_work 1000) (runBatchList save_genres (load_data src.genre 1000) (runBatchList save_persons (load_data src.person 1000) (⟨emptyDB, c, []⟩ : RunState)))).db.film_work = (runBatchList save_genres (load_data src.genre 1000) (runBatchList save_persons (load_data src.person 1000) (⟨emptyDB, c, []⟩ : RunState))).db.film_work ++ e3 := by rw [r1]
  have hS3p : (runBatchList save_film_works (load_data src.film_work 1000) (runBatchList save_genres (load_data src.genre 1000) (runBatchList save_persons (load_data src.person 1000) (⟨emptyDB, c, []⟩ : RunState)))).db.person = (⟨emptyDB, c, []⟩ : RunState).db.person ++ e1 := by rw [r1, q1, p1]
  have hsubpfw : ∀ r ∈ (load_data src.person_film_work 1000).flatten,
      r ∈ src.person_film_work := by
    rw [load_data_flatten]; exact fun r hr => hr
  have hfkspfw : ∀ r ∈ src.person_film_work,
      (∃ f ∈ (runBatchList save_film_works (load_data src.film_work 1000) (runBatchList save_genres (load_data src.genre 1000) (runBatchList save_persons (load_data src.person 1000) (⟨emptyDB, c, []⟩ : RunState)))).db.film_work, f.id = r.film_work_id)
      ∧ (∃ p ∈ (runBatchList save_film_works (load_data src.film_work 1000) (runBatchList save_genres (load_data src.genre 1000) (runBatchList save_persons (load_data src.person 1000) (⟨emptyDB, c, []⟩ : RunState)))).db.person, p.id = r.person_id) := by
    intro r hr
    obtain ⟨⟨f0, hf0, hf0id⟩, ⟨p0, hp0, hp0id⟩⟩ := hpfw_fk r hr
    constructor
    · obtain ⟨x, hx, hxid⟩ := r4 f0 hf0
      refine ⟨x, ?_, by rw [hxid, hf0id]⟩
      rw [hS3fw]; exact hx
    · obtain ⟨x, hx, hxid⟩ := p4 p0 hp0
      refine ⟨x, ?_, by rw [hxid, hp0id]⟩
      rw [hS3p]; exact hx
  have hcompfw : ∀ x ∈ (runBatchList save_film_works (load_data src.film_work 1000) (runBatchList save_genres (load_data src.genre 1000) (runBatchList save_persons (load_data src.person 1000) (⟨emptyDB, c, []⟩ : RunState)))).db.person_film_work,
      ∃ row ∈ src.person_film_work, ∃ c0, x = (pfwEmit c0 row).1 := by
    have hnil : (runBatchList save_film_works (load_data src.film_work 1000) (runBatchList save_genres (load_data src.genre 1000) (runBatchList save_persons (load_data src.person 1000) (⟨emptyDB, c, []⟩ : RunState)))).db.person_film_work = ([] : List PFWRec) := by
      rw [r1, q1, p1]
      exact rfl
    intro x hx
    rw [hnil] at hx
    exact absurd hx (List.not_mem_nil x)
  obtain ⟨e4, w1, w2, _, w4⟩ :=
    runBatchList_pfw src.person_film_work hpfw_uk
      (load_data src.person_film_work 1000) (runBatchList save_film_works (load_data src.film_work 1000) (runBatchList save_genres (load_data src.genre 1000) (runBatchList save_persons (load_data src.person 1000) (⟨emptyDB, c, []⟩ : RunState)))) hsubpfw hfkspfw hcompfw
  rw [load_data_flatten] at w4
  have hS4fw : (runBatchList save_person_film_work (load_data src.person_film_work 1000) (runBatchList save_film_works (load_data src.film_work 1000) (runBatchList save_genres (load_data src.genre 1000) (runBatchList save_persons (load_data src.person 1000) (⟨emptyDB, c, []⟩ : RunState))))).db.film_work = (runBatchList save_genres (load_data src.genre 1000) (runBatchList save_persons (load_data src.person 1000) (⟨emptyDB, c, []⟩ : RunState))).db.film_work ++ e3 := by rw [w1, r1]
  have hS4g : (runBatchList save_person_film_work (load_data src.person_film_work 1000) (runBatchList save_film_works (load_data src.film_work 1000) (runBatchList save_genres (load_data src.genre 1000) (runBatchList save_persons (load_data src.person 1000) (⟨emptyDB, c, []⟩ : RunState))))).db.genre = (runBatchList save_persons (load_data src.person 1000) (⟨emptyDB, c, []⟩ : RunState)).db.genre ++ e2 := by rw [w1, r1, q1]
  have hsubgfw : ∀ r ∈ (load_data src.genre_film_work 1000).flatten,
      r ∈ src.genre_film_work := by
    rw [load_data_flatten]; exact fun r hr => hr
  have hfksgfw : ∀ r ∈ src.genre_film_work,
      (∃ f ∈ (runBatchList save_person_film_work (load_data src.person_film_work 1000) (runBatchList save_film_works (load_data src.film_work 1000) (runBatchList save_genres (load_data src.genre 1000) (runBatchList save_persons (load_data src.person 1000) (⟨emptyDB, c, []⟩ : RunState))))).db.film_work, f.id = r.film_work_id)
      ∧ (∃ g ∈ (runBatchList save_person_film_work (load_data src.person_film_work 1000) (runBatchList save_film_works (load_data src.film_work 1000) (runBatchList save_genres (load_data src.genre 1000) (runBatchList save_persons (load_data src.person 1000) (⟨emptyDB, c, []⟩ : RunState))))).db.genre, g.id = r.genre_id) := by
    intro r hr
    obtain ⟨⟨f0, hf0, hf0id⟩, ⟨g0, hg0, hg0id⟩⟩ := hgfw_fk r hr
    constructor
    · obtain ⟨x, hx, hxid⟩ := r4 f0 hf0
      refine ⟨x, ?_, by rw [hxid, hf0id]⟩
      rw [hS4fw]; exact hx
    · obtain ⟨x, hx, hxid⟩ := q4 g0 hg0
      refine ⟨x, ?_, by rw [hxid, hg0id]⟩
      rw [hS4g]; exact hx
  have hcomgfw : ∀ x ∈ (runBatchList save_person_film_work (load_data src.person_film_work 1000) (runBatchList save_film_works (load_data src.film_work 1000) (runBatchList save_genres (load_data src.genre 1000) (runBatchList save_persons (load_data src.person 1000) (⟨emptyDB, c, []⟩ : RunState))))).db.genre_film_work,
      ∃ row ∈ src.genre_film_work, ∃ c0, x = (gfwEmit c0 row).1 := by
    have hnil : (runBatchList save_person_film_work (load_data src.person_film_work 1000) (runBatchList save_film_works (load_data src.film_work 1000) (runBatchList save_genres (load_data src.genre 1000) (runBatchList save_persons (load_data src.person 1000) (⟨emptyDB, c, []⟩ : RunState))))).db.genre_film_work = ([] : List GFWRec) := by
      rw [w1, r1, q1, p1]
      exact rfl
    intro x hx
    rw [hnil] at hx
    exact absurd hx (List.not_mem_nil x)
  obtain ⟨e5, v1, v2, _, v4⟩ :=
    runBatchList_gfw src.genre_film_work hgfw_uk
      (load_data src.genre_film_work 1000) (runBatchList save_person_film_work (load_data src.person_film_work 1000) (runBatchList save_film_works (load_data src.film_work 1000) (runBatchList save_genres (load_data src.genre 1000) (runBatchList save_persons (load_data src.person 1000) (⟨emptyDB, c, []⟩ : RunState))))) hsubgfw hfksgfw hcomgfw
  rw [load_data_flatten] at v4
  have hS5p : (runBatchList save_genre_film_work (load_data src.genre_film_work 1000) (runBatchList save_person_film_work (load_data src.person_film_work 1000) (runBatchList save_film_works (load_data src.film_work 1000) (runBatchList save_genres (load_data src.genre 1000) (runBatchList save_persons (load_data src.person 1000) (⟨emptyDB, c, []⟩ : RunState)))))).db.person = (⟨emptyDB, c, []⟩ : RunState).db.person ++ e1 := by rw [v1, w1, r1, q1, p1]
  have hS5g : (runBatchList save_genre_film_work (load_data src.genre_film_work 1000) (runBatchList save_person_film_work (load_data src.person_film_work 1000) (runBatchList save_film_works (load_data src.film_work 1000) (runBatchList save_genres (load_data src.genre 1000) (runBatchList save_persons (load_data src.person 1000) (⟨emptyDB, c, []⟩ : RunState)))))).db.genre = (runBatchList save_persons (load_data src.person 1000) (⟨emptyDB, c, []⟩ : RunState)).db.genre ++ e2 := by rw [v1, w1, r1, q1]
  have hS5fw : (runBatchList save_genre_film_work (load_data src.genre_film_work 1000) (runBatchList save_person_film_work (load_data src.person_film_work 1000) (runBatchList save_film_works (load_data src.film_work 1000) (runBatchList save_genres (load_data src.genre 1000) (runBatchList save_persons (load_data src.person 1000) (⟨emptyDB, c, []⟩ : RunState)))))).db.film_work = (runBatchList save_genres (load_data src.genre 1000) (runBatchList save_persons (load_data src.person 1000) (⟨emptyDB, c, []⟩ : RunState))).db.film_work ++ e3 := by rw [v1, w1, r1]
  have hS5pfw : (runBatchList save_genre_film_work (load_data src.genre_film_work 1000) (runBatchList save_person_film_work (load_data src.person_film_work 1000) (runBatchList save_film_works (load_data src.film_work 1000) (runBatchList save_genres (load_data src.genre 1000) (runBatchList save_persons (load_data src.person 1000) (⟨emptyDB, c, []⟩ : RunState)))))).db.person_film_work
      = (runBatchList save_film_works (load_data src.film_work 1000) (runBatchList save_genres (load_data src.genre 1000) (runBatchList save_persons (load_data src.person 1000) (⟨emptyDB, c, []⟩ : RunState)))).db.person_film_work ++ e4 := by rw [v1, w1]
  have hS5gfw : (runBatchList save_genre_film_work (load_data src.genre_film_work 1000) (runBatchList save_person_film_work (load_data src.person_film_work 1000) (runBatchList save_film_works (load_data src.film_work 1000) (runBatchList save_genres (load_data src.genre 1000) (runBatchList save_persons (load_data src.person 1000) (⟨emptyDB, c, []⟩ : RunState)))))).db.genre_film_work
      = (runBatchList save_person_film_work (load_data src.person_film_work 1000) (runBatchList save_film_works (load_data src.film_work 1000) (runBatchList save_genres (load_data src.genre 1000) (runBatchList save_persons (load_data src.person 1000) (⟨emptyDB, c, []⟩ : RunState))))).db.genre_film_work ++ e5 := by rw [v1]
  refine ⟨?_, ?_, ?_, ?_, ?_, ?_⟩
  · intro row hrow
    obtain ⟨x, hx, he⟩ := p4 row hrow
    exact ⟨x, by rw [show (load_from_sqlite src emptyDB c).db.person
      = (runBatchList save_genre_film_work (load_data src.genre_film_work 1000) (runBatchList save_person_film_work (load_data src.person_film_work 1000) (runBatchList save_film_works (load_data src.film_work 1000) (runBatchList save_genres (load_data src.genre 1000) (runBatchList save_persons (load_data src.person 1000) (⟨emptyDB, c, []⟩ : RunState)))))).db.person from rfl, hS5p]; exact hx, he⟩
  · intro row hrow
    obtain ⟨x, hx, he⟩ := q4 row hrow
    exact ⟨x, by rw [show (load_from_sqlite src emptyDB c).db.genre
      = (runBatchList save_genre_film_work (load_data src.genre_film_work 1000) (runBatchList save_person_film_work (load_data src.person_film_work 1000) (runBatchList save_film_works (load_data src.film_work 1000) (runBatchList save_genres (load_data src.genre 1000) (runBatchList save_persons (load_data src.person 1000) (⟨emptyDB, c, []⟩ : RunState)))))).db.genre from rfl, hS5g]; exact hx, he⟩
  · intro row hrow
    obtain ⟨x, hx, he⟩ := r4 row hrow
    exact ⟨x, by rw [show (load_from_sqlite src emptyDB c).db.film_work
      = (runBatchList save_genre_film_work (load_data src.genre_film_work 1000) (runBatchList save_person_film_work (load_data src.person_film_work 1000) (runBatchList save_film_works (load_data src.film_work 1000) (runBatchList save_genres (load_data src.genre 1000) (runBatchList save_persons (load_data src.person 1000) (⟨emptyDB, c, []⟩ : RunState)))))).db.film_work from rfl, hS5fw]; exact hx, he⟩
  · intro row hrow
    obtain ⟨x, hx, he⟩ := w4 row hrow
    exact ⟨x, by rw [show (load_from_sqlite src emptyDB c).db.person_film_work
      = (runBatchList save_genre_film_work (load_data src.genre_film_work 1000) (runBatchList save_person_film_work (load_data src.person_film_work 1000) (runBatchList save_film_works (load_data src.film_work 1000) (runBatchList save_genres (load_data src.genre 1000) (runBatchList save_persons (load_data src.person 1000) (⟨emptyDB, c, []⟩ : RunState)))))).db.person_film_work from rfl, hS5pfw]; exact hx, he⟩
  · intro row hrow
    obtain ⟨x, hx, he⟩ := v4 row hrow
    exact ⟨x, by rw [show (load_from_sqlite src emptyDB c).db.genre_film_work
      = (runBatchList save_genre_film_work (load_data src.genre_film_work 1000) (runBatchList save_person_film_work (load_data src.person_film_work 1000) (runBatchList save_film_works (load_data src.film_work 1000) (runBatchList save_genres (load_data src.genre 1000) (runBatchList save_persons (load_data src.person 1000) (⟨emptyDB, c, []⟩ : RunState)))))).db.genre_film_work from rfl, hS5gfw]; exact hx, he⟩
  · show (runBatchList save_genre_film_work (load_data src.genre_film_work 1000) (runBatchList save_person_film_work (load_data src.person_film_work 1000) (runBatchList save_film_works (load_data src.film_work 1000) (runBatchList save_genres (load_data src.genre 1000) (runBatchList save_persons (load_data src.person 1000) (⟨emptyDB, c, []⟩ : RunState)))))).warnings = []
    rw [v2, w2, r2, q2, p2]

end MigrationLemmas2

/-- C5: for a source whose foreign keys resolve within the source and
whose declared unique keys (genre name; the two composite link keys)
determine row ids, running the whole migration a second time against the
target produced by the first run leaves the target content identical, and
the second run logs no warnings — every row is skipped via the silent
`ON CONFLICT (id)` path, inserting 0 rows per table. -/
theorem c5_migration_idempotent (src : LoadData.Source) (c c' : Nat)
    (hgenre_uk : ∀ g ∈ src.genre, ∀ g' ∈ src.genre,
      LoadData.genreUk g' = LoadData.genreUk g → LoadData.genreUk g ≠ none → g'.id = g.id)
    (hpfw_uk : ∀ r ∈ src.person_film_work, ∀ r' ∈ src.person_film_work,
      LoadData.pfwUk r' = LoadData.pfwUk r → r'.id = r.id)
    (hgfw_uk : ∀ r ∈ src.genre_film_work, ∀ r' ∈ src.genre_film_work,
      LoadData.gfwUk r' = LoadData.gfwUk r → r'.id = r.id)
    (hpfw_fk : ∀ r ∈ src.person_film_work,
      (∃ f ∈ src.film_work, f.id = r.film_work_id)
      ∧ (∃ p ∈ src.person, p.id = r.person_id))
    (hgfw_fk : ∀ r ∈ src.genre_film_work,
      (∃ f ∈ src.film_work, f.id = r.film_work_id)
      ∧ (∃ g ∈ src.genre, g.id = r.genre_id)) :
    (LoadData.load_from_sqlite src
        (LoadData.load_from_sqlite src LoadData.emptyDB c).db c').db
      = (LoadData.load_from_sqlite src LoadData.emptyDB c).db
    ∧ (LoadData.load_from_sqlite src
        (LoadData.load_from_sqlite src LoadData.emptyDB c).db c').warnings = [] := by
  obtain ⟨k1, k2, k3, k4, k5, _⟩ :=
    load_from_sqlite_covers src c hgenre_uk hpfw_uk hgfw_uk hpfw_fk hgfw_fk
  exact load_from_sqlite_noop src
    (LoadData.load_from_sqlite src LoadData.emptyDB c).db c' k1 k2 k3 k4 k5

/-- C5 witness: the one-row-per-table consistent source — the second run
reproduces the first run's target exactly and logs nothing. -/
theorem c5_migration_idempotent_witness :
    (LoadData.load_from_sqlite Fix.c5src
        (LoadData.load_from_sqlite Fix.c5src LoadData.emptyDB 0).db 100).db
      = (LoadData.load_from_sqlite Fix.c5src LoadData.emptyDB 0).db
    ∧ (LoadData.load_from_sqlite Fix.c5src
        (LoadData.load_from_sqlite Fix.c5src LoadData.emptyDB 0).db 100).warnings = [] :=
  c5_migration_idempotent Fix.c5src 0 100 (by decide) (by decide) (by decide)
    (by decide) (by decide)
